import Mathlib

/-!
Verification of the systray reconciliation subsystem of the yasb repository
(`src/core/widgets/yasb/systray.py`).

The Python code is shallowly embedded: the widget's mutable state becomes the
`SystrayState` structure, Python dicts become association lists with
last-write-wins insertion (`dictInsert` / `dictUnion`, mirroring `d[k] = v` and
`d1 | d2`), Qt layouts become lists of widget identifiers, and each handler
method becomes a pure state-transformer.

Types defined in repository modules that are not part of the sources at hand
(`core.utils.systray.systray_widget`, `core.utils.systray.tray_monitor`,
`core.utils.systray.win_types`) are modelled from the spec, as marked in
their doc comments.
-/

namespace Systray

/-! ### Python dict model

A Python `dict[str, V]` is modelled as an association list in insertion order.
`dictInsert` is `d[k] = v` (replace in place if the key exists, else append),
`dictUnion` is `d1 | d2` (right operand wins), `dictGet?` is `d.get(k)`.
-/

def dictGet? {V : Type} (d : List (String × V)) (k : String) : Option V :=
  match d with
  | [] => none
  | (k2, v) :: rest => if k2 = k then some v else dictGet? rest k

def dictInsert {V : Type} (d : List (String × V)) (k : String) (v : V) :
    List (String × V) :=
  match d with
  | [] => [(k, v)]
  | (k2, v2) :: rest =>
    if k2 = k then (k2, v) :: rest else (k2, v2) :: dictInsert rest k v

/-- Build a dict from a list of key-value pairs, later pairs overwriting
earlier ones (the semantics of filling a fresh Python dict in a loop). -/
def dictOfList {V : Type} (l : List (String × V)) : List (String × V) :=
  l.foldl (fun acc p => dictInsert acc p.1 p.2) []

/-- Python `d1 | d2` on dicts: all keys of both, values from `d2` winning. -/
def dictUnion {V : Type} (d1 d2 : List (String × V)) : List (String × V) :=
  d2.foldl (fun acc p => dictInsert acc p.1 p.2) d1

/-! ### Tray icon data

`IconData` is defined in `core.utils.systray.tray_monitor`, which is not among
the sources; it is modelled from the spec: a "mutable record of platform
tray-icon attributes (handle, resource id, flags, version, tooltip, state,
icon image, callback message, info fields)", "created empty when a new icon
notification arrives with no existing match".  The fields are exactly those
read and written by `SystrayWidget.update_icon_data` and its callers.  GUIDs
(`uuid.UUID` values) are modelled as natural numbers; window handles,
resource ids and icon handles likewise; strings stay strings.
-/

structure IconData where
  message_type : Nat := 0
  hWnd : Nat := 0
  uID : Nat := 0
  uFlags : Nat := 0
  icon_image : Option Nat := none
  exe : String := ""
  exe_path : String := ""
  uVersion : Nat := 0
  uCallbackMessage : Nat := 0
  hIcon : Nat := 0
  szTip : String := ""
  dwState : Nat := 0
  dwStateMask : Nat := 0
  guid : Option Nat := none
  dwInfoFlags : Nat := 0
  szInfoTitle : String := ""
  szInfo : String := ""
  uTimeout : Nat := 0
deriving DecidableEq

/-- Modelled from the spec: `core.utils.systray.win_types` is not among the
sources; these are the standard Windows `NOTIFYICONDATA` presence-flag bits
named by the imports of `systray.py` (distinct single bits). -/
def NIF_MESSAGE : Nat := 1

/-- Modelled from the spec: standard `NIF_ICON` presence-flag bit. -/
def NIF_ICON : Nat := 2

/-- Modelled from the spec: standard `NIF_TIP` presence-flag bit. -/
def NIF_TIP : Nat := 4

/-- Modelled from the spec: standard `NIF_STATE` presence-flag bit. -/
def NIF_STATE : Nat := 8

/-- Modelled from the spec: standard `NIF_INFO` presence-flag bit. -/
def NIF_INFO : Nat := 16

/-- Modelled from the spec: standard `NIF_GUID` presence-flag bit. -/
def NIF_GUID : Nat := 32

/-- Embedding of `SystrayWidget.update_icon_data` (systray.py lines 293-325),
written as an
explicit per-field update.  The attributes in `direct_attributes` are always
copied from the incoming notification; `uVersion` only when the new value is
in `(0, 4]`; the attributes in `flag_dependent_attrs` only when the matching
presence bit is set in the incoming `uFlags`.  The Python function mutates
`old_data` in place; here it returns the updated record (the `old_data is
None` early-return is handled at the call site). -/
def update_icon_data (old_data : IconData) (new_data : IconData) : IconData :=
  { message_type := new_data.message_type
    hWnd := new_data.hWnd
    uID := new_data.uID
    uFlags := new_data.uFlags
    icon_image := new_data.icon_image
    exe := new_data.exe
    exe_path := new_data.exe_path
    uVersion :=
      if 0 < new_data.uVersion ∧ new_data.uVersion ≤ 4 then new_data.uVersion
      else old_data.uVersion
    uCallbackMessage :=
      if new_data.uFlags &&& NIF_MESSAGE ≠ 0 then new_data.uCallbackMessage
      else old_data.uCallbackMessage
    hIcon :=
      if new_data.uFlags &&& NIF_ICON ≠ 0 then new_data.hIcon
      else old_data.hIcon
    szTip :=
      if new_data.uFlags &&& NIF_TIP ≠ 0 then new_data.szTip
      else old_data.szTip
    dwState :=
      if new_data.uFlags &&& NIF_STATE ≠ 0 then new_data.dwState
      else old_data.dwState
    dwStateMask :=
      if new_data.uFlags &&& NIF_STATE ≠ 0 then new_data.dwStateMask
      else old_data.dwStateMask
    guid :=
      if new_data.uFlags &&& NIF_GUID ≠ 0 then new_data.guid
      else old_data.guid
    dwInfoFlags :=
      if new_data.uFlags &&& NIF_INFO ≠ 0 then new_data.dwInfoFlags
      else old_data.dwInfoFlags
    szInfoTitle :=
      if new_data.uFlags &&& NIF_INFO ≠ 0 then new_data.szInfoTitle
      else old_data.szInfoTitle
    szInfo :=
      if new_data.uFlags &&& NIF_INFO ≠ 0 then new_data.szInfo
      else old_data.szInfo
    uTimeout :=
      if new_data.uFlags &&& NIF_INFO ≠ 0 then new_data.uTimeout
      else old_data.uTimeout }

/-- The value of a field after a sequence of updates, as the spec describes it:
the value carried by the last element satisfying `p`, or the initial value if
none does. -/
def lastField {α : Type} (p : IconData → Prop) [DecidablePred p]
    (f : IconData → α) (a0 : α) (ds : List IconData) : α :=
  ds.foldl (fun a d => if p d then f d else a) a0

/-- Applying a whole sequence of modify notifications to one icon's data. -/
def applyNotifications (d0 : IconData) (ds : List IconData) : IconData :=
  ds.foldl update_icon_data d0

/-- A first concrete notification used in witnesses: carries `NIF_ICON`. -/
def wNote1 : IconData :=
  { hWnd := 100, uID := 1, uFlags := 2, hIcon := 7, uVersion := 3 }

/-- A second concrete notification used in witnesses: carries `NIF_STATE` and
an out-of-range version. -/
def wNote2 : IconData :=
  { hWnd := 100, uID := 1, uFlags := 8, dwState := 1, dwStateMask := 1,
    uVersion := 9 }

/-! ### Widget state and handlers

`IconState` and `IconWidget` are defined in
`core.utils.systray.systray_widget`, which is not among the sources.
`IconState` is modelled from the spec: a record `is_pinned : bool, index : int`
whose JSON serialization (`__dict__` on save, `from_dict` on load) is the
identity on these two fields.  `IconWidget` is modelled from the spec as a
visual entity owning one optional `IconData`, a pin flag, and a hidden flag;
Qt object identity is modelled by the numeric id `wid`, and the two Qt group
layouts become lists of such ids ordered left to right. -/

structure IconState where
  index : Int
  is_pinned : Bool
deriving DecidableEq

structure IconWidget where
  wid : Nat
  data : Option IconData
  is_pinned : Bool
  hidden : Bool
deriving DecidableEq

/-- The mutable state of one `SystrayWidget` instance: the registry list
`self.icons` (in creation order), the two layouts (as widget-id lists), the
in-memory `self.current_state` dict, the configured filter set
`self.filtered_guids`, and a fresh-id counter standing for Qt object
allocation. -/
structure SystrayState where
  icons : List IconWidget
  unpinned_layout : List Nat
  pinned_layout : List Nat
  current_state : List (String × IconState)
  filtered_guids : List Nat
  nextId : Nat
deriving DecidableEq

/-- The first `find_icon` loop's per-icon test: skip icons with no data or no
GUID, match on GUID equality. -/
def guidMatches (g : Nat) (w : IconWidget) : Bool :=
  match w.data with
  | none => false
  | some d => d.guid == some g

/-- The second `find_icon` loop's per-icon test: skip icons with no data,
match on the exact `(hWnd, uID)` pair. -/
def hwndUidMatches (hwnd uid : Nat) (w : IconWidget) : Bool :=
  match w.data with
  | none => false
  | some d => d.hWnd == hwnd && d.uID == uid

/-- Embedding of `SystrayWidget.find_icon` (systray.py lines 267-279): when a
GUID is
present, first scan for a live icon with that GUID; the second scan by
`(hWnd, uID)` runs whenever the first loop returned nothing (also when a GUID
was present), since the Python code falls through to it. -/
def find_icon (icons : List IconWidget) (uuid : Option Nat) (hwnd uID : Nat) :
    Option IconWidget :=
  match uuid with
  | some g =>
    match icons.find? (guidMatches g) with
    | some w => some w
    | none => icons.find? (hwndUidMatches hwnd uID)
  | none => icons.find? (hwndUidMatches hwnd uID)

/-- The identity key under which an icon is stored in the state dict:
`str(data.guid)` when a GUID is present, else the executable path (systray.py
lines 206, 394-395; `str` on the modelled numeric GUID is `toString`). -/
def stateKey (d : IconData) : String :=
  match d.guid with
  | some g => toString g
  | none => d.exe_path

/-- The saved-state lookup on first notification (systray.py lines 206-213):
`self.current_state.get(id, self.current_state.get(data.exe_path,
IconState(index=-1, is_pinned=False)))`. -/
def lookupSavedState (cs : List (String × IconState)) (d : IconData) :
    IconState :=
  match dictGet? cs (stateKey d) with
  | some st => st
  | none =>
    match dictGet? cs d.exe_path with
    | some st => st
    | none => { index := -1, is_pinned := false }

/-- The common tail of `on_icon_modified`: `update_icon_data(icon.data, data)`
(a no-op when `icon.data` is `None`) followed by
`icon.setHidden(data.uFlags & NIF_STATE != 0 and data.dwState == 1)`, applied
to the one widget with the given id. -/
def applyDataToIcon (icons : List IconWidget) (wid : Nat) (d : IconData) :
    List IconWidget :=
  icons.map fun w =>
    if w.wid = wid then
      { w with
        data := w.data.map (fun o => update_icon_data o d)
        hidden := decide (d.uFlags &&& NIF_STATE ≠ 0) && (d.dwState == 1) }
    else w

/-- Embedding of `SystrayWidget.on_icon_modified` (systray.py lines 192-227).
Filtered
GUIDs are dropped first; an unmatched notification creates a fresh widget
(with empty `IconData`), places it in the pinned or unpinned layout according
to the saved-state lookup, and appends it to the registry; then the common
tail updates the widget's data and hidden flag.  The debounced sort timer and
the visibility recomputation have no effect on this state and are not
modelled. -/
def on_icon_modified (s : SystrayState) (d : IconData) : SystrayState :=
  if d.guid.any (fun g => s.filtered_guids.contains g) then s
  else
    match find_icon s.icons d.guid d.hWnd d.uID with
    | some icon => { s with icons := applyDataToIcon s.icons icon.wid d }
    | none =>
      let saved := lookupSavedState s.current_state d
      let icon : IconWidget :=
        { wid := s.nextId, data := some {}, is_pinned := saved.is_pinned,
          hidden := false }
      { s with
        icons := applyDataToIcon (s.icons ++ [icon]) icon.wid d
        nextId := s.nextId + 1
        pinned_layout :=
          if saved.is_pinned then s.pinned_layout ++ [icon.wid]
          else s.pinned_layout
        unpinned_layout :=
          if saved.is_pinned then s.unpinned_layout
          else s.unpinned_layout ++ [icon.wid] }

/-- Removal of one widget: `self.icons.remove(icon)` plus the effect of
`icon.deleteLater()`, which detaches the widget from whichever group layout
holds it. -/
def removeIcon (s : SystrayState) (wid : Nat) : SystrayState :=
  { s with
    icons := s.icons.filter (fun w => w.wid ≠ wid)
    unpinned_layout := s.unpinned_layout.filter (fun id => id ≠ wid)
    pinned_layout := s.pinned_layout.filter (fun id => id ≠ wid) }

/-- Embedding of `SystrayWidget.on_icon_deleted` (systray.py lines 229-236).
Note: unlike
`on_icon_modified`, there is no `filtered_guids` check here. -/
def on_icon_deleted (s : SystrayState) (d : IconData) : SystrayState :=
  match find_icon s.icons d.guid d.hWnd d.uID with
  | some icon => removeIcon s icon.wid
  | none => s

/-- Embedding of `SystrayWidget.check_icons` (systray.py lines 281-291): the
periodic
liveness sweep removes every icon whose data is present but whose window
handle fails `IsWindow`; the platform predicate is a parameter. -/
def check_icons (isWindowValid : Nat → Bool) (s : SystrayState) :
    SystrayState :=
  let keep : IconWidget → Bool := fun w =>
    match w.data with
    | some d => isWindowValid d.hWnd
    | none => true
  { s with
    icons := s.icons.filter keep
    unpinned_layout := s.unpinned_layout.filter
      (fun id => !(s.icons.any (fun w => w.wid == id && !(keep w))))
    pinned_layout := s.pinned_layout.filter
      (fun id => !(s.icons.any (fun w => w.wid == id && !(keep w)))) }

/-- Qt `QBoxLayout.indexOf` on a widget-id list. -/
def idxOf? (L : List Nat) (id : Nat) : Option Nat :=
  L.findIdx? (fun x => x == id)

/-- The layout index computed in `update_current_state` (systray.py lines
391-393): `self.unpinned_layout.indexOf(w)`, falling back to
`self.pinned_layout.indexOf(w)` when it is `-1`, and staying `-1` when the
widget is in neither layout. -/
def widgetIndex (s : SystrayState) (w : IconWidget) : Int :=
  match idxOf? s.unpinned_layout w.wid with
  | some i => (i : Int)
  | none =>
    match idxOf? s.pinned_layout w.wid with
    | some i => (i : Int)
    | none => -1

/-- The `(key, IconState)` pair a widget contributes to the snapshot dict in
`update_current_state`, or `none` for widgets skipped by the
`w.data is None or w.isHidden()` guard. -/
def snapEntry (s : SystrayState) (w : IconWidget) :
    Option (String × IconState) :=
  match w.data with
  | none => none
  | some d =>
    if w.hidden then none
    else some (stateKey d, { index := widgetIndex s w, is_pinned := w.is_pinned })

/-- Embedding of `SystrayWidget.update_current_state` (systray.py lines
385-399): build
`widgets_state` by iterating `self.icons` in order (a Python dict fill, so a
later widget with the same key overwrites an earlier one), then
`self.current_state |= widgets_state`. -/
def update_current_state (s : SystrayState) : SystrayState :=
  { s with
    current_state :=
      dictUnion s.current_state (dictOfList (s.icons.filterMap (snapEntry s))) }

/-- Embedding of `get_sort_index` inside `SystrayWidget.sort_icons`
(systray.py lines
368-375): `9999` for widgets with no data; otherwise look up
`self.current_state` under the GUID string when a GUID is present and under
the executable path otherwise (with no fallback from one key to the other),
defaulting to `9999` when the lookup fails. -/
def get_sort_index (cs : List (String × IconState)) (w : IconWidget) : Int :=
  match w.data with
  | none => 9999
  | some d =>
    match dictGet? cs (stateKey d) with
    | some st => st.index
    | none => 9999

/-- Embedding of `SystrayWidget.get_widgets_from_layout` (systray.py lines
448-455):
resolve each layout id to its live widget. -/
def layoutWidgets (icons : List IconWidget) (L : List Nat) :
    List IconWidget :=
  L.filterMap (fun id => icons.find? (fun w => w.wid == id))

/-- Qt `QBoxLayout.insertWidget(i, w)` for a widget already in the layout:
detach it and re-insert at position `i`. -/
def moveToIndex (L : List Nat) (i : Nat) (id : Nat) : List Nat :=
  (L.erase id).insertIdx i id

/-- The re-insertion loop of `sort_icons`:
`for w in srt: layout.insertWidget(srt.index(w), w)`.  Python's `list.index`
compares `QWidget` objects by identity, so `srt.index(w)` is the enumeration
position of `w` in `srt`. -/
def reinsertSorted (L : List Nat) (srt : List IconWidget) : List Nat :=
  srt.enum.foldl (fun acc p => moveToIndex acc p.1 p.2.wid) L

/-- The comparison under which Python's stable `list.sort(key=get_sort_index)`
sorts. -/
def sortLe (cs : List (String × IconState)) (w v : IconWidget) : Bool :=
  get_sort_index cs w ≤ get_sort_index cs v

/-- Embedding of `SystrayWidget.sort_icons` (systray.py lines 362-383):
stable-sort each
group's widget list by `get_sort_index`, re-insert the widgets at their sorted
positions, then recompute the snapshot via `update_current_state`. -/
def sort_icons (s : SystrayState) : SystrayState :=
  let unpinned := layoutWidgets s.icons s.unpinned_layout
  let pinned := layoutWidgets s.icons s.pinned_layout
  let sortedUnpinned := unpinned.mergeSort (sortLe s.current_state)
  let sortedPinned := pinned.mergeSort (sortLe s.current_state)
  update_current_state
    { s with
      unpinned_layout := reinsertSorted s.unpinned_layout sortedUnpinned
      pinned_layout := reinsertSorted s.pinned_layout sortedPinned }

/-- The two notification kinds delivered by the tray monitor plus the periodic
liveness sweep (whose `IsWindow` answers are a parameter). -/
inductive TrayEvent where
  | modified (d : IconData)
  | deleted (d : IconData)
  | sweep (isWindowValid : Nat → Bool)

def applyEvent (s : SystrayState) : TrayEvent → SystrayState
  | TrayEvent.modified d => on_icon_modified s d
  | TrayEvent.deleted d => on_icon_deleted s d
  | TrayEvent.sweep valid => check_icons valid s

def runEvents (s : SystrayState) (es : List TrayEvent) : SystrayState :=
  es.foldl applyEvent s

/-- The widget state right after `__init__` and `load_state`: empty registry
and layouts, loaded current state, configured filter set. -/
def initState (cs : List (String × IconState)) (filt : List Nat) :
    SystrayState :=
  { icons := [], unpinned_layout := [], pinned_layout := [],
    current_state := cs, filtered_guids := filt, nextId := 0 }

/-! ### Concrete states and notifications used by witnesses and counterexamples -/

/-- A GUID-less icon used in the C1 counterexample. -/
def cxIcon : IconWidget :=
  { wid := 0, data := some { hWnd := 100, uID := 1 }, is_pinned := false,
    hidden := false }

/-- A GUID-carrying icon used in the C1 witness. -/
def cxIconG : IconWidget :=
  { wid := 3, data := some { guid := some 5, hWnd := 200, uID := 2 },
    is_pinned := false, hidden := false }

/-- The state after a GUID-less icon with `(hWnd, uID) = (100, 1)` arrived at
a widget whose filter set contains GUID 7. -/
def c8State : SystrayState :=
  on_icon_modified (initState [] [7]) { guid := none, hWnd := 100, uID := 1 }

/-- Embedding of `SystrayWidget.save_state` (systray.py lines 401-422), with
the file
system made explicit: the prior on-disk JSON object is a parameter (`none`
models a missing or undecodable file, read as `{}`), and the function returns
the widget state after its `update_current_state()` call together with the
JSON object it writes (`saved_state | {k: v.__dict__ ...}`).  `IconState`
serialization is modelled from the spec as the identity on the
`{is_pinned, index}` record. -/
def save_state (disk : Option (List (String × IconState))) (s : SystrayState) :
    SystrayState × List (String × IconState) :=
  let s1 := update_current_state s
  (s1, dictUnion (disk.getD []) s1.current_state)

/-- Embedding of `SystrayWidget.load_state` (systray.py lines 424-438):
the field `current_state` is
reset to `{}` and then filled from the on-disk JSON object (`none` models a
missing or undecodable file, leaving it `{}`); `IconState.from_dict` is
modelled from the spec as the identity on the `{is_pinned, index}` record. -/
def load_state (disk : Option (List (String × IconState)))
    (s : SystrayState) : SystrayState :=
  { s with current_state := disk.getD [] }

/-- A one-icon state used by the persistence witnesses; its snapshot writes
the path key of its single visible icon. -/
def perIcon : IconWidget :=
  { wid := 0, data := some { exe_path := "app" }, is_pinned := false,
    hidden := false }

/-- A one-icon state used by the persistence witnesses. -/
def perState : SystrayState :=
  { icons := [perIcon],
    unpinned_layout := [0], pinned_layout := [],
    current_state := [("m", { index := 1, is_pinned := false })],
    filtered_guids := [], nextId := 1 }

/-- Prior on-disk content used by the persistence witnesses. -/
def perDisk : List (String × IconState) :=
  [("old", { index := 3, is_pinned := true })]

/-- First GUID-less icon (path "p") in the C10 witness state. -/
def c10w1 : IconWidget :=
  { wid := 0, data := some { exe_path := "p" }, is_pinned := false,
    hidden := false }

/-- Second GUID-less icon (same path "p") in the C10 witness state. -/
def c10w2 : IconWidget :=
  { wid := 1, data := some { exe_path := "p" }, is_pinned := true,
    hidden := false }

/-- The C10 witness state: both icons live, one per group. -/
def c10State : SystrayState :=
  { icons := [c10w1, c10w2], unpinned_layout := [0], pinned_layout := [1],
    current_state := [], filtered_guids := [], nextId := 2 }

/-- Pre-loaded saved state giving path "k" a pinned entry, for the C7
witness. -/
def c7State : SystrayState := initState [("k", { index := 0, is_pinned := true })] []

/-- The first notification for path "k" used in the C7 witness. -/
def c7Data : IconData := { hWnd := 10, uID := 1, exe_path := "k" }

/-- The sort key as the claim words it (for refutation): saved index looked up
by GUID key first and, if that lookup fails, falling back to the path key,
with sentinel 9999 when neither resolves. -/
def get_sort_index_claimed (cs : List (String × IconState))
    (w : IconWidget) : Int :=
  match w.data with
  | none => 9999
  | some d =>
    match d.guid with
    | some g =>
      match dictGet? cs (toString g) with
      | some st => st.index
      | none =>
        match dictGet? cs d.exe_path with
        | some st => st.index
        | none => 9999
    | none =>
      match dictGet? cs d.exe_path with
      | some st => st.index
      | none => 9999

/-- A GUID-carrying icon whose GUID key is absent from the saved state while
its path key is present, used to separate the code from the claim. -/
def c2w1 : IconWidget :=
  { wid := 1, data := some { guid := some 5, exe_path := "p" },
    is_pinned := false, hidden := false }

/-- A GUID-less icon with a saved path entry. -/
def c2w2 : IconWidget :=
  { wid := 2, data := some { exe_path := "q" }, is_pinned := false,
    hidden := false }

/-- The C2/C6 counterexample base state: saved state has index 0 under the
path "p" and index 5 under "q", but no entry under the GUID key "5". -/
def c2State : SystrayState :=
  { icons := [c2w1, c2w2], unpinned_layout := [1, 2], pinned_layout := [],
    current_state := [("p", { index := 0, is_pinned := false }),
                      ("q", { index := 5, is_pinned := false })],
    filtered_guids := [], nextId := 3 }

/-- Visible icon with path "a" (saved index 5) in the C6 counterexample. -/
def c6w0 : IconWidget :=
  { wid := 0, data := some { exe_path := "a" }, is_pinned := false,
    hidden := false }

/-- Hidden icon with path "b" (saved index 7) in the C6 counterexample. -/
def c6w1 : IconWidget :=
  { wid := 1, data := some { exe_path := "b" }, is_pinned := false,
    hidden := true }

/-- Visible icon with path "c" (saved index 9) in the C6 counterexample. -/
def c6w2 : IconWidget :=
  { wid := 2, data := some { exe_path := "c" }, is_pinned := false,
    hidden := false }

/-- The C6 counterexample state: one hidden widget between two visible ones,
saved indices 5, 7, 9. -/
def c6State : SystrayState :=
  { icons := [c6w0, c6w1, c6w2], unpinned_layout := [0, 1, 2],
    pinned_layout := [],
    current_state := [("a", { index := 5, is_pinned := false }),
                      ("b", { index := 7, is_pinned := false }),
                      ("c", { index := 9, is_pinned := false })],
    filtered_guids := [], nextId := 3 }

/-- The state after the first sort of `c6State`: the widget order is
unchanged and the snapshot has re-indexed the visible widgets. -/
def c6State1 : SystrayState :=
  update_current_state
    { c6State with unpinned_layout := [0, 1, 2], pinned_layout := [] }

/-- The non-null GUIDs currently carried by registry entries, in registry
order. -/
def entryGuids (s : SystrayState) : List Nat :=
  s.icons.filterMap (fun w => w.data.bind (fun d => d.guid))

/-- The bookkeeping invariant of one widget instance's registry: distinct
widget object identities, all below the allocation counter, and pairwise
distinct non-null GUIDs. -/
def RegistryInv (s : SystrayState) : Prop :=
  (s.icons.map (fun w => w.wid)).Nodup ∧
  (∀ w ∈ s.icons, w.wid < s.nextId) ∧
  (entryGuids s).Nodup

/-- Two widgets share a resolved identity, as the claim words it: either both
carry the same non-null GUID, or both have data with equal `(hWnd, uID)` and
GUID fields (so they are not "distinguished by GUID"). -/
def sameResolvedIdentity (w v : IconWidget) : Prop :=
  ((w.data.bind (fun d2 => d2.guid)).isSome = true ∧
    w.data.bind (fun d2 => d2.guid) = v.data.bind (fun d2 => d2.guid)) ∨
  (w.data.map (fun d2 => (d2.hWnd, d2.uID, d2.guid)) ≠ none ∧
    w.data.map (fun d2 => (d2.hWnd, d2.uID, d2.guid))
      = v.data.map (fun d2 => (d2.hWnd, d2.uID, d2.guid)))

instance (w v : IconWidget) : Decidable (sameResolvedIdentity w v) := by
  unfold sameResolvedIdentity
  infer_instance

/-- The claim's invariant: no two registry entries share a resolved
identity. -/
def claimedIdentityUnique (s : SystrayState) : Prop :=
  s.icons.Pairwise (fun w v => ¬ sameResolvedIdentity w v)

instance (s : SystrayState) : Decidable (claimedIdentityUnique s) := by
  unfold claimedIdentityUnique
  infer_instance

/-- Notification 1 in the C9 counterexample trace: creates icon A with GUID 1
at `(hWnd, uID) = (1, 1)`. -/
def c9d1 : IconData := { guid := some 1, hWnd := 1, uID := 1, uFlags := 32 }

/-- Notification 2: creates GUID-less icon B at `(2, 2)`. -/
def c9d2 : IconData := { guid := none, hWnd := 2, uID := 2 }

/-- Notification 3: matches A by GUID and directly overwrites its `(hWnd,
uID)` to `(2, 2)`, colliding with B. -/
def c9d3 : IconData := { guid := some 1, hWnd := 2, uID := 2 }

/-- Notification 4: GUID-less, resolves to A by the `(2, 2)` fallback, and —
carrying `NIF_GUID` — erases A's GUID. -/
def c9d4 : IconData := { guid := none, hWnd := 2, uID := 2, uFlags := 32 }

/-- The registry state after the four-notification counterexample trace. -/
def c9Final : SystrayState :=
  runEvents (initState [] [])
    [TrayEvent.modified c9d1, TrayEvent.modified c9d2,
     TrayEvent.modified c9d3, TrayEvent.modified c9d4]

/-! ### Dict lemmas -/

theorem dictGet?_insert_self {V : Type} (d : List (String × V)) (k : String)
    (v : V) : dictGet? (dictInsert d k v) k = some v := by
  induction d with
  | nil => simp [dictInsert, dictGet?]
  | cons p rest ih =>
    by_cases h : p.1 = k
    · simp [dictInsert, dictGet?, h]
    · simp [dictInsert, dictGet?, h, ih]

theorem dictGet?_insert_ne {V : Type} (d : List (String × V)) (k k2 : String)
    (v : V) (h : k2 ≠ k) : dictGet? (dictInsert d k2 v) k = dictGet? d k := by
  induction d with
  | nil => simp [dictInsert, dictGet?, h]
  | cons p rest ih =>
    obtain ⟨k1, v1⟩ := p
    by_cases h2 : k1 = k2
    · subst h2
      simp [dictInsert, dictGet?, h]
    · by_cases h3 : k1 = k
      · subst h3
        simp [dictInsert, dictGet?, h2, if_neg (Ne.symm h)]
      · simp [dictInsert, dictGet?, h2, h3, ih]

theorem dictGet?_append {V : Type} (d1 d2 : List (String × V)) (k : String) :
    dictGet? (d1 ++ d2) k = (dictGet? d1 k).or (dictGet? d2 k) := by
  induction d1 with
  | nil => simp [dictGet?]
  | cons p rest ih =>
    by_cases h : p.1 = k
    · simp [dictGet?, h]
    · simp [dictGet?, h, ih]

/-- Folding `dictInsert` over a pair list realizes last-write-wins: a lookup in
the result sees the last matching entry of the list, falling back to the
accumulator. -/
theorem dictGet?_foldl_insert {V : Type} (l : List (String × V))
    (d : List (String × V)) (k : String) :
    dictGet? (l.foldl (fun acc p => dictInsert acc p.1 p.2) d) k
      = (dictGet? l.reverse k).or (dictGet? d k) := by
  induction l generalizing d with
  | nil => simp [dictGet?]
  | cons p rest ih =>
    rw [List.foldl_cons, ih, List.reverse_cons, dictGet?_append]
    by_cases h : p.1 = k
    · subst h
      simp only [dictGet?_insert_self, dictGet?, if_pos rfl]
      cases dictGet? rest.reverse p.1 <;> simp
    · rw [dictGet?_insert_ne d k p.1 p.2 h]
      simp only [dictGet?, if_neg h]
      cases dictGet? rest.reverse k <;> simp

theorem dictGet?_union {V : Type} (d1 d2 : List (String × V)) (k : String) :
    dictGet? (dictUnion d1 d2) k
      = (dictGet? d2.reverse k).or (dictGet? d1 k) :=
  dictGet?_foldl_insert d2 d1 k

theorem dictGet?_ofList {V : Type} (l : List (String × V)) (k : String) :
    dictGet? (dictOfList l) k = dictGet? l.reverse k := by
  rw [dictOfList, dictGet?_foldl_insert]
  simp [dictGet?]

/-- A key is absent from a dict iff no entry of the underlying list carries it. -/
theorem dictGet?_eq_none_iff {V : Type} (d : List (String × V)) (k : String) :
    dictGet? d k = none ↔ ∀ p ∈ d, p.1 ≠ k := by
  induction d with
  | nil => simp [dictGet?]
  | cons p rest ih =>
    by_cases h : p.1 = k
    · simp [dictGet?, h]
    · simp [dictGet?, h, ih]

theorem dictGet?_reverse_of_nodup {V : Type} (d : List (String × V))
    (hnd : (d.map Prod.fst).Nodup) (k : String) :
    dictGet? d.reverse k = dictGet? d k := by
  induction d with
  | nil => simp
  | cons p rest ih =>
    simp only [List.map_cons, List.nodup_cons] at hnd
    rw [List.reverse_cons, dictGet?_append, ih hnd.2]
    by_cases h : p.1 = k
    · subst h
      have : dictGet? rest p.1 = none := by
        rw [dictGet?_eq_none_iff]
        intro q hq
        exact fun he => hnd.1 (he ▸ List.mem_map_of_mem Prod.fst hq)
      simp [this, dictGet?]
    · simp only [dictGet?, if_neg h]
      cases dictGet? rest k <;> simp

/-! ### C3: modify-notification field gating -/

theorem lastField_always {α : Type} (f : IconData → α) (a0 : α)
    (ds : List IconData) (dl : IconData) (h : ds.getLast? = some dl) :
    lastField (fun _ => True) f a0 ds = f dl := by
  induction ds generalizing a0 with
  | nil => simp at h
  | cons d rest ih =>
    cases rest with
    | nil =>
      simp only [List.getLast?_singleton, Option.some.injEq] at h
      simp [lastField, h]
    | cons e rest2 =>
      rw [List.getLast?_cons_cons] at h
      exact ih (f d) h

/-- A field whose one-step behavior is "take the new value when `p` holds,
else keep the old" ends up, after a whole sequence, holding the value of the
last element satisfying `p` (or the initial value). -/
theorem applyNotifications_field {α : Type} (p : IconData → Prop)
    [DecidablePred p] (f : IconData → α)
    (hstep : ∀ o d, f (update_icon_data o d) = if p d then f d else f o)
    (d0 : IconData) (ds : List IconData) :
    f (applyNotifications d0 ds) = lastField p f (f d0) ds := by
  induction ds generalizing d0 with
  | nil => rfl
  | cons d rest ih =>
    show f (applyNotifications (update_icon_data d0 d) rest)
      = lastField p f (f d0) (d :: rest)
    rw [ih, hstep]
    rfl

/-- C3: for every sequence of modify notifications applied to one icon's
`IconData`, the direct fields (message type, hWnd, uID, uFlags, icon image,
exe, exe path) end up with the last notification's values; each flagged field
ends up with the value of the last notification whose presence flag bit was
set (or its prior value if none was); and `uVersion` ends up with the last
notification's version lying in `[1, 4]` (unchanged otherwise). -/
theorem C3_modify_field_gating (d0 : IconData) (ds : List IconData)
    (dl : IconData) (h : ds.getLast? = some dl) :
    (applyNotifications d0 ds).message_type = dl.message_type ∧
    (applyNotifications d0 ds).hWnd = dl.hWnd ∧
    (applyNotifications d0 ds).uID = dl.uID ∧
    (applyNotifications d0 ds).uFlags = dl.uFlags ∧
    (applyNotifications d0 ds).icon_image = dl.icon_image ∧
    (applyNotifications d0 ds).exe = dl.exe ∧
    (applyNotifications d0 ds).exe_path = dl.exe_path ∧
    (applyNotifications d0 ds).uCallbackMessage
      = lastField (fun d => d.uFlags &&& NIF_MESSAGE ≠ 0)
          (fun d => d.uCallbackMessage) d0.uCallbackMessage ds ∧
    (applyNotifications d0 ds).hIcon
      = lastField (fun d => d.uFlags &&& NIF_ICON ≠ 0)
          (fun d => d.hIcon) d0.hIcon ds ∧
    (applyNotifications d0 ds).szTip
      = lastField (fun d => d.uFlags &&& NIF_TIP ≠ 0)
          (fun d => d.szTip) d0.szTip ds ∧
    (applyNotifications d0 ds).dwState
      = lastField (fun d => d.uFlags &&& NIF_STATE ≠ 0)
          (fun d => d.dwState) d0.dwState ds ∧
    (applyNotifications d0 ds).dwStateMask
      = lastField (fun d => d.uFlags &&& NIF_STATE ≠ 0)
          (fun d => d.dwStateMask) d0.dwStateMask ds ∧
    (applyNotifications d0 ds).guid
      = lastField (fun d => d.uFlags &&& NIF_GUID ≠ 0)
          (fun d => d.guid) d0.guid ds ∧
    (applyNotifications d0 ds).dwInfoFlags
      = lastField (fun d => d.uFlags &&& NIF_INFO ≠ 0)
          (fun d => d.dwInfoFlags) d0.dwInfoFlags ds ∧
    (applyNotifications d0 ds).szInfoTitle
      = lastField (fun d => d.uFlags &&& NIF_INFO ≠ 0)
          (fun d => d.szInfoTitle) d0.szInfoTitle ds ∧
    (applyNotifications d0 ds).szInfo
      = lastField (fun d => d.uFlags &&& NIF_INFO ≠ 0)
          (fun d => d.szInfo) d0.szInfo ds ∧
    (applyNotifications d0 ds).uTimeout
      = lastField (fun d => d.uFlags &&& NIF_INFO ≠ 0)
          (fun d => d.uTimeout) d0.uTimeout ds ∧
    (applyNotifications d0 ds).uVersion
      = lastField (fun d => 0 < d.uVersion ∧ d.uVersion ≤ 4)
          (fun d => d.uVersion) d0.uVersion ds := by
  refine ⟨?_, ?_, ?_, ?_, ?_, ?_, ?_, ?_, ?_, ?_, ?_, ?_, ?_, ?_, ?_, ?_,
    ?_, ?_⟩
  · rw [applyNotifications_field (fun _ => True) (fun d => d.message_type)
      (fun o d => rfl)]
    exact lastField_always _ _ _ _ h
  · rw [applyNotifications_field (fun _ => True) (fun d => d.hWnd)
      (fun o d => rfl)]
    exact lastField_always _ _ _ _ h
  · rw [applyNotifications_field (fun _ => True) (fun d => d.uID)
      (fun o d => rfl)]
    exact lastField_always _ _ _ _ h
  · rw [applyNotifications_field (fun _ => True) (fun d => d.uFlags)
      (fun o d => rfl)]
    exact lastField_always _ _ _ _ h
  · rw [applyNotifications_field (fun _ => True) (fun d => d.icon_image)
      (fun o d => rfl)]
    exact lastField_always _ _ _ _ h
  · rw [applyNotifications_field (fun _ => True) (fun d => d.exe)
      (fun o d => rfl)]
    exact lastField_always _ _ _ _ h
  · rw [applyNotifications_field (fun _ => True) (fun d => d.exe_path)
      (fun o d => rfl)]
    exact lastField_always _ _ _ _ h
  · exact applyNotifications_field _ _ (fun o d => rfl) d0 ds
  · exact applyNotifications_field _ _ (fun o d => rfl) d0 ds
  · exact applyNotifications_field _ _ (fun o d => rfl) d0 ds
  · exact applyNotifications_field _ _ (fun o d => rfl) d0 ds
  · exact applyNotifications_field _ _ (fun o d => rfl) d0 ds
  · exact applyNotifications_field _ _ (fun o d => rfl) d0 ds
  · exact applyNotifications_field _ _ (fun o d => rfl) d0 ds
  · exact applyNotifications_field _ _ (fun o d => rfl) d0 ds
  · exact applyNotifications_field _ _ (fun o d => rfl) d0 ds
  · exact applyNotifications_field _ _ (fun o d => rfl) d0 ds
  · exact applyNotifications_field _ _ (fun o d => rfl) d0 ds

/-- Witness for C3 at the two-notification sequence `[wNote1, wNote2]`. -/
theorem C3_modify_field_gating_witness :
    ([wNote1, wNote2].getLast? = some wNote2) ∧
    ((applyNotifications {} [wNote1, wNote2]).message_type
        = wNote2.message_type ∧
    (applyNotifications {} [wNote1, wNote2]).hWnd = wNote2.hWnd ∧
    (applyNotifications {} [wNote1, wNote2]).uID = wNote2.uID ∧
    (applyNotifications {} [wNote1, wNote2]).uFlags = wNote2.uFlags ∧
    (applyNotifications {} [wNote1, wNote2]).icon_image = wNote2.icon_image ∧
    (applyNotifications {} [wNote1, wNote2]).exe = wNote2.exe ∧
    (applyNotifications {} [wNote1, wNote2]).exe_path = wNote2.exe_path ∧
    (applyNotifications {} [wNote1, wNote2]).uCallbackMessage
      = lastField (fun d => d.uFlags &&& NIF_MESSAGE ≠ 0)
          (fun d => d.uCallbackMessage)
          (IconData.uCallbackMessage {}) [wNote1, wNote2] ∧
    (applyNotifications {} [wNote1, wNote2]).hIcon
      = lastField (fun d => d.uFlags &&& NIF_ICON ≠ 0)
          (fun d => d.hIcon) (IconData.hIcon {}) [wNote1, wNote2] ∧
    (applyNotifications {} [wNote1, wNote2]).szTip
      = lastField (fun d => d.uFlags &&& NIF_TIP ≠ 0)
          (fun d => d.szTip) (IconData.szTip {}) [wNote1, wNote2] ∧
    (applyNotifications {} [wNote1, wNote2]).dwState
      = lastField (fun d => d.uFlags &&& NIF_STATE ≠ 0)
          (fun d => d.dwState) (IconData.dwState {}) [wNote1, wNote2] ∧
    (applyNotifications {} [wNote1, wNote2]).dwStateMask
      = lastField (fun d => d.uFlags &&& NIF_STATE ≠ 0)
          (fun d => d.dwStateMask) (IconData.dwStateMask {}) [wNote1, wNote2] ∧
    (applyNotifications {} [wNote1, wNote2]).guid
      = lastField (fun d => d.uFlags &&& NIF_GUID ≠ 0)
          (fun d => d.guid) (IconData.guid {}) [wNote1, wNote2] ∧
    (applyNotifications {} [wNote1, wNote2]).dwInfoFlags
      = lastField (fun d => d.uFlags &&& NIF_INFO ≠ 0)
          (fun d => d.dwInfoFlags) (IconData.dwInfoFlags {}) [wNote1, wNote2] ∧
    (applyNotifications {} [wNote1, wNote2]).szInfoTitle
      = lastField (fun d => d.uFlags &&& NIF_INFO ≠ 0)
          (fun d => d.szInfoTitle) (IconData.szInfoTitle {}) [wNote1, wNote2] ∧
    (applyNotifications {} [wNote1, wNote2]).szInfo
      = lastField (fun d => d.uFlags &&& NIF_INFO ≠ 0)
          (fun d => d.szInfo) (IconData.szInfo {}) [wNote1, wNote2] ∧
    (applyNotifications {} [wNote1, wNote2]).uTimeout
      = lastField (fun d => d.uFlags &&& NIF_INFO ≠ 0)
          (fun d => d.uTimeout) (IconData.uTimeout {}) [wNote1, wNote2] ∧
    (applyNotifications {} [wNote1, wNote2]).uVersion
      = lastField (fun d => 0 < d.uVersion ∧ d.uVersion ≤ 4)
          (fun d => d.uVersion) (IconData.uVersion {}) [wNote1, wNote2]) :=
  ⟨rfl, C3_modify_field_gating {} [wNote1, wNote2] wNote2 rfl⟩

/-! ### C1: identity resolution -/

/-- C1 counterexample: a notification carrying GUID 5 reaches a registry whose
only icon has no GUID, and `find_icon` nevertheless returns that icon by its
`(hWnd, uID)` pair — the claim says the result should be `none` when a GUID is
present and no live icon carries it. -/
theorem C1_counterexample :
    find_icon [cxIcon] (some 5) 100 1 = some cxIcon ∧
    guidMatches 5 cxIcon = false ∧
    cxIcon.data = some { hWnd := 100, uID := 1 } := by
  refine ⟨by decide, by decide, rfl⟩

/-- C1 amended: when a GUID is present and some live icon carries it, the
resolver returns a GUID-carrying icon (ignoring `hwnd`/`uid`); when a GUID is
present but no live icon carries it, the resolver falls back to the exact
`(hwnd, uid)` scan rather than reporting a new icon; with no GUID it resolves
only by exact `(hwnd, uid)` match; when neither rule matches, the result is
`none`. -/
theorem C1_find_icon_resolution (icons : List IconWidget) (g hwnd uid : Nat) :
    ((∃ w ∈ icons, guidMatches g w = true) →
      ∃ v, find_icon icons (some g) hwnd uid = some v ∧
        guidMatches g v = true) ∧
    ((∀ w ∈ icons, guidMatches g w = false) →
      find_icon icons (some g) hwnd uid
        = icons.find? (hwndUidMatches hwnd uid)) ∧
    (∀ v, find_icon icons none hwnd uid = some v →
      v ∈ icons ∧ hwndUidMatches hwnd uid v = true) ∧
    ((∀ w ∈ icons, hwndUidMatches hwnd uid w = false) →
      find_icon icons none hwnd uid = none) ∧
    ((∀ w ∈ icons, guidMatches g w = false) →
     (∀ w ∈ icons, hwndUidMatches hwnd uid w = false) →
      find_icon icons (some g) hwnd uid = none) := by
  refine ⟨?_, ?_, ?_, ?_, ?_⟩
  · intro hex
    have hsome : (icons.find? (guidMatches g)).isSome := by
      rw [List.find?_isSome]
      obtain ⟨w, hw, hg⟩ := hex
      exact ⟨w, hw, hg⟩
    cases hfind : icons.find? (guidMatches g) with
    | none => rw [hfind] at hsome; simp at hsome
    | some v =>
      exact ⟨v, by simp [find_icon, hfind], List.find?_some hfind⟩
  · intro hall
    have hnone : icons.find? (guidMatches g) = none := by
      rw [List.find?_eq_none]
      intro w hw
      simp [hall w hw]
    simp [find_icon, hnone]
  · intro v hv
    simp only [find_icon] at hv
    exact ⟨List.mem_of_find?_eq_some hv, List.find?_some hv⟩
  · intro hall
    have : icons.find? (hwndUidMatches hwnd uid) = none := by
      rw [List.find?_eq_none]
      intro w hw
      simp [hall w hw]
    simp [find_icon, this]
  · intro hg hh
    have h1 : icons.find? (guidMatches g) = none := by
      rw [List.find?_eq_none]
      intro w hw
      simp [hg w hw]
    have h2 : icons.find? (hwndUidMatches hwnd uid) = none := by
      rw [List.find?_eq_none]
      intro w hw
      simp [hh w hw]
    simp [find_icon, h1, h2]

/-- Witness for the amended C1 at concrete registries. -/
theorem C1_find_icon_resolution_witness :
    (∃ v, find_icon [cxIconG, cxIcon] (some 5) 100 1 = some v ∧
      guidMatches 5 v = true) ∧
    find_icon [cxIcon] (some 9) 100 1
      = [cxIcon].find? (hwndUidMatches 100 1) ∧
    find_icon [cxIconG] (some 9) 100 1 = none :=
  ⟨(C1_find_icon_resolution [cxIconG, cxIcon] 5 100 1).1
      ⟨cxIconG, by decide, by decide⟩,
   (C1_find_icon_resolution [cxIcon] 9 100 1).2.1 (by decide),
   (C1_find_icon_resolution [cxIconG] 9 100 1).2.2.2.2 (by decide)
     (by decide)⟩

/-! ### C8: filtering -/

/-- C8 counterexample: a delete notification whose GUID 7 is in the filter set
is not dropped: `on_icon_deleted` performs no filter check, resolves the
notification by its `(hWnd, uID)` pair to the live GUID-less icon, and removes
it — the registry changes, contradicting the claimed no-op. -/
theorem C8_counterexample :
    c8State.filtered_guids = [7] ∧
    c8State.icons.length = 1 ∧
    (on_icon_deleted c8State { guid := some 7, hWnd := 100, uID := 1 }).icons
      = [] := by
  refine ⟨by decide, by decide, by decide⟩

/-- C8 amended: a modify notification whose GUID is in the configured filter
set is a complete no-op on the widget state; delete notifications, however,
are not checked against the filter set (see the counterexample). -/
theorem C8_filtered_modify_noop (s : SystrayState) (d : IconData) (g : Nat)
    (hg : d.guid = some g) (hf : g ∈ s.filtered_guids) :
    on_icon_modified s d = s := by
  have hc : s.filtered_guids.contains g = true := by
    rw [List.contains_iff_exists_mem_beq]
    exact ⟨g, hf, by simp⟩
  have hany : (d.guid.any fun g2 => s.filtered_guids.contains g2) = true := by
    rw [hg]
    simpa using hc
  simp only [on_icon_modified, hany, if_true]

/-- Witness for the amended C8: a filtered battery-style GUID modify
notification leaves the freshly initialized state untouched. -/
theorem C8_filtered_modify_noop_witness :
    on_icon_modified (initState [] [7]) { guid := some 7, hWnd := 5, uID := 2 }
      = initState [] [7] :=
  C8_filtered_modify_noop (initState [] [7])
    { guid := some 7, hWnd := 5, uID := 2 } 7 rfl (by decide)

/-! ### C4, C5: persistence -/

theorem mem_dictInsert_keys {V : Type} (d : List (String × V)) (k a : String)
    (v : V) :
    a ∈ (dictInsert d k v).map Prod.fst ↔ a ∈ d.map Prod.fst ∨ a = k := by
  induction d with
  | nil => simp [dictInsert]
  | cons p rest ih =>
    obtain ⟨k1, v1⟩ := p
    by_cases h : k1 = k
    · subst h
      simp [dictInsert]
      tauto
    · simp only [dictInsert, if_neg h, List.map_cons, List.mem_cons, ih]
      tauto

theorem dictInsert_keys_nodup {V : Type} (d : List (String × V)) (k : String)
    (v : V) (hd : (d.map Prod.fst).Nodup) :
    ((dictInsert d k v).map Prod.fst).Nodup := by
  induction d with
  | nil => simp [dictInsert]
  | cons p rest ih =>
    obtain ⟨k1, v1⟩ := p
    simp only [List.map_cons, List.nodup_cons] at hd
    by_cases h : k1 = k
    · subst h
      simp only [dictInsert, if_pos rfl, List.map_cons, List.nodup_cons,
        eq_self_iff_true, if_true]
      exact ⟨hd.1, hd.2⟩
    · simp only [dictInsert, if_neg h, List.map_cons, List.nodup_cons]
      refine ⟨?_, ih hd.2⟩
      rw [mem_dictInsert_keys]
      rintro (hx | hx)
      · exact hd.1 hx
      · exact h hx

theorem dictUnion_keys_nodup {V : Type} (d1 d2 : List (String × V))
    (h : (d1.map Prod.fst).Nodup) :
    ((dictUnion d1 d2).map Prod.fst).Nodup := by
  rw [dictUnion]
  induction d2 generalizing d1 with
  | nil => exact h
  | cons p rest ih =>
    rw [List.foldl_cons]
    exact ih (dictInsert d1 p.1 p.2) (dictInsert_keys_nodup d1 p.1 p.2 h)

theorem dictOfList_keys_nodup {V : Type} (l : List (String × V)) :
    ((dictOfList l).map Prod.fst).Nodup :=
  dictUnion_keys_nodup [] l (by simp)

theorem update_current_state_keys_nodup (s : SystrayState)
    (hs : (s.current_state.map Prod.fst).Nodup) :
    ((update_current_state s).current_state.map Prod.fst).Nodup :=
  dictUnion_keys_nodup _ _ hs

/-- C4: saving merges with the prior on-disk state: every key absent from the
in-memory snapshot keeps its prior on-disk value in the written file, and
every key present in the snapshot is written with its in-memory value. -/
theorem C4_save_merges_disk (disk : List (String × IconState))
    (s : SystrayState) (k : String)
    (hs : (s.current_state.map Prod.fst).Nodup) :
    (dictGet? (save_state (some disk) s).1.current_state k = none →
      dictGet? (save_state (some disk) s).2 k = dictGet? disk k) ∧
    (∀ v, dictGet? (save_state (some disk) s).1.current_state k = some v →
      dictGet? (save_state (some disk) s).2 k = some v) := by
  have hmem : (save_state (some disk) s).1.current_state
      = (update_current_state s).current_state := rfl
  have hwritten : (save_state (some disk) s).2
      = dictUnion disk (update_current_state s).current_state := rfl
  have hnd : (((update_current_state s).current_state).map Prod.fst).Nodup :=
    update_current_state_keys_nodup s hs
  constructor
  · intro hnone
    rw [hmem] at hnone
    rw [hwritten, dictGet?_union]
    rw [dictGet?_reverse_of_nodup _ hnd, hnone]
    rfl
  · intro v hv
    rw [hmem] at hv
    rw [hwritten, dictGet?_union]
    rw [dictGet?_reverse_of_nodup _ hnd, hv]
    rfl

/-- C5: persistence round-trips: after `save_state(); load_state()`, every key
present in the saved in-memory snapshot is loaded back with exactly the
snapshot's `IconState` (same `is_pinned` and `index`). -/
theorem C5_save_load_roundtrip (disk : List (String × IconState))
    (s : SystrayState) (k : String) (v : IconState)
    (hs : (s.current_state.map Prod.fst).Nodup)
    (hk : dictGet? (save_state (some disk) s).1.current_state k = some v) :
    dictGet?
      (load_state (some (save_state (some disk) s).2)
        (save_state (some disk) s).1).current_state k = some v := by
  have hload : (load_state (some (save_state (some disk) s).2)
      (save_state (some disk) s).1).current_state
      = (save_state (some disk) s).2 := rfl
  rw [hload]
  exact (C4_save_merges_disk disk s k hs).2 v hk

/-- Witness for C4 at a concrete disk file and state: the key "old" (absent
from the snapshot) keeps its on-disk value, and the key "m" (present) is
written with the in-memory value. -/
theorem C4_save_merges_disk_witness :
    (dictGet? (save_state (some perDisk) perState).1.current_state "old"
        = none →
      dictGet? (save_state (some perDisk) perState).2 "old"
        = dictGet? perDisk "old") ∧
    (∀ v, dictGet? (save_state (some perDisk) perState).1.current_state "m"
        = some v →
      dictGet? (save_state (some perDisk) perState).2 "m" = some v) :=
  ⟨(C4_save_merges_disk perDisk perState "old" (by decide)).1,
   (C4_save_merges_disk perDisk perState "m" (by decide)).2⟩

/-- Witness for C5 at a concrete disk file and state. -/
theorem C5_save_load_roundtrip_witness :
    dictGet?
      (load_state (some (save_state (some perDisk) perState).2)
        (save_state (some perDisk) perState).1).current_state "m"
      = some { index := 1, is_pinned := false } :=
  C5_save_load_roundtrip perDisk perState "m"
    { index := 1, is_pinned := false } (by decide) (by decide)

/-! ### C10: snapshot key collapse -/

theorem dictGet?_ofList_lastEntry {V : Type} (l1 l2 : List (String × V))
    (k : String) (v : V) (h2 : ∀ q ∈ l2, q.1 ≠ k) :
    dictGet? (dictOfList (l1 ++ (k, v) :: l2)) k = some v := by
  rw [dictGet?_ofList, List.reverse_append, List.reverse_cons]
  rw [List.append_assoc, dictGet?_append]
  have hnone : dictGet? l2.reverse k = none := by
    rw [dictGet?_eq_none_iff]
    intro q hq
    exact h2 q (List.mem_reverse.mp hq)
  rw [hnone]
  rw [dictGet?_append]
  simp [dictGet?]

/-- C10: when two live, non-hidden, GUID-less icon widgets share the same
executable path, the snapshot written by `update_current_state` has a single
entry under that path key, and the entry holds the layout index and pin flag
of whichever of those widgets comes last among the path's contributors in
`self.icons` iteration order — the placements of the earlier widgets are not
representable in the persisted state. -/
theorem C10_snapshot_key_collapse (s : SystrayState)
    (A B C : List IconWidget) (w1 w2 : IconWidget) (d1 d2 : IconData)
    (p : String)
    (hicons : s.icons = A ++ w1 :: B ++ w2 :: C)
    (hd1 : w1.data = some d1) (hg1 : d1.guid = none) (hp1 : d1.exe_path = p)
    (hh1 : w1.hidden = false)
    (hd2 : w2.data = some d2) (hg2 : d2.guid = none) (hp2 : d2.exe_path = p)
    (hh2 : w2.hidden = false)
    (hlast : ∀ w ∈ C, ∀ q, snapEntry s w = some q → q.1 ≠ p) :
    dictGet? (update_current_state s).current_state p
      = some { index := widgetIndex s w2, is_pinned := w2.is_pinned } := by
  have hkey1 : stateKey d1 = p := by
    rw [stateKey, hg1, hp1]
  have hkey2 : stateKey d2 = p := by
    rw [stateKey, hg2, hp2]
  have he1 : snapEntry s w1
      = some (p, { index := widgetIndex s w1, is_pinned := w1.is_pinned }) := by
    rw [snapEntry, hd1, hh1]
    simp [hkey1]
  have he2 : snapEntry s w2
      = some (p, { index := widgetIndex s w2, is_pinned := w2.is_pinned }) := by
    rw [snapEntry, hd2, hh2]
    simp [hkey2]
  have hentries : s.icons.filterMap (snapEntry s)
      = (A.filterMap (snapEntry s)
          ++ (p, { index := widgetIndex s w1, is_pinned := w1.is_pinned })
            :: B.filterMap (snapEntry s))
        ++ (p, { index := widgetIndex s w2, is_pinned := w2.is_pinned })
          :: C.filterMap (snapEntry s) := by
    rw [hicons]
    simp only [List.filterMap_append, List.filterMap_cons, he1, he2]
  have hC : ∀ q ∈ C.filterMap (snapEntry s), q.1 ≠ p := by
    intro q hq
    obtain ⟨w, hw, hwq⟩ := List.mem_filterMap.mp hq
    exact hlast w hw q hwq
  have hofl : dictGet? (dictOfList (s.icons.filterMap (snapEntry s))) p
      = some { index := widgetIndex s w2, is_pinned := w2.is_pinned } := by
    rw [hentries]
    exact dictGet?_ofList_lastEntry _ _ _ _ hC
  have hnod : ((dictOfList (s.icons.filterMap (snapEntry s))).map
      Prod.fst).Nodup := dictOfList_keys_nodup _
  show dictGet? (dictUnion s.current_state
      (dictOfList (s.icons.filterMap (snapEntry s)))) p = _
  rw [dictGet?_union, dictGet?_reverse_of_nodup _ hnod, hofl]
  rfl

/-- Witness for C10: with both path-"p" icons live, the snapshot holds a
single "p" entry carrying the later widget's pin flag and index. -/
theorem C10_snapshot_key_collapse_witness :
    dictGet? (update_current_state c10State).current_state "p"
      = some { index := widgetIndex c10State c10w2,
               is_pinned := c10w2.is_pinned } :=
  C10_snapshot_key_collapse c10State [] [] [] c10w1 c10w2
    { exe_path := "p" } { exe_path := "p" } "p" rfl rfl rfl rfl rfl rfl rfl
    rfl rfl (by intro w hw; simp at hw)

/-! ### C7: first-notification placement -/

/-- C7: a modify notification that passes the filter and resolves to no
existing icon creates exactly one new widget, appended to the registry, whose
pin flag — and therefore target group — is the `is_pinned` of the saved state
entry found under the GUID-string-or-path key, falling back to the path-only
key, and defaulting to unpinned; the other registry entries and the rest of
both layouts are untouched, so the placement is independent of what other
icons arrived before. -/
theorem C7_first_notification_placement (s : SystrayState) (d : IconData)
    (hfil : (d.guid.any fun g => s.filtered_guids.contains g) = false)
    (hnew : find_icon s.icons d.guid d.hWnd d.uID = none)
    (hfresh : ∀ w ∈ s.icons, w.wid ≠ s.nextId) :
    ∃ w : IconWidget,
      (on_icon_modified s d).icons = s.icons ++ [w] ∧
      w.wid = s.nextId ∧
      w.is_pinned = ((dictGet? s.current_state (stateKey d)).getD
        ((dictGet? s.current_state d.exe_path).getD
          { index := -1, is_pinned := false })).is_pinned ∧
      (w.is_pinned = true →
        (on_icon_modified s d).pinned_layout = s.pinned_layout ++ [w.wid] ∧
        (on_icon_modified s d).unpinned_layout = s.unpinned_layout) ∧
      (w.is_pinned = false →
        (on_icon_modified s d).unpinned_layout
          = s.unpinned_layout ++ [w.wid] ∧
        (on_icon_modified s d).pinned_layout = s.pinned_layout) := by
  have hsaved : lookupSavedState s.current_state d
      = ((dictGet? s.current_state (stateKey d)).getD
        ((dictGet? s.current_state d.exe_path).getD
          { index := -1, is_pinned := false })) := by
    rw [lookupSavedState]
    cases dictGet? s.current_state (stateKey d) with
    | some st => rfl
    | none =>
      cases dictGet? s.current_state d.exe_path with
      | some st => rfl
      | none => rfl
  have hmod : on_icon_modified s d =
      (let saved := lookupSavedState s.current_state d
      let icon : IconWidget :=
        { wid := s.nextId, data := some {},
          is_pinned := saved.is_pinned, hidden := false }
      { s with
        icons := applyDataToIcon (s.icons ++ [icon]) icon.wid d
        nextId := s.nextId + 1
        pinned_layout :=
          if saved.is_pinned then s.pinned_layout ++ [icon.wid]
          else s.pinned_layout
        unpinned_layout :=
          if saved.is_pinned then s.unpinned_layout
          else s.unpinned_layout ++ [icon.wid] }) := by
    rw [on_icon_modified, hfil]
    simp only [Bool.false_eq_true, if_false]
    rw [hnew]
  have happly : applyDataToIcon
      (s.icons ++ [{ wid := s.nextId, data := some {},
                     is_pinned := (lookupSavedState s.current_state d).is_pinned,
                     hidden := false }]) s.nextId d
      = s.icons ++
        [{ wid := s.nextId,
           data := some (update_icon_data {} d),
           is_pinned := (lookupSavedState s.current_state d).is_pinned,
           hidden := decide (d.uFlags &&& NIF_STATE ≠ 0)
             && (d.dwState == 1) }] := by
    rw [applyDataToIcon, List.map_append]
    congr 1
    · apply List.map_congr_left ?_ |>.trans (List.map_id s.icons)
      intro w hw
      simp [hfresh w hw]
    · simp
  refine ⟨{ wid := s.nextId,
            data := some (update_icon_data {} d),
            is_pinned := (lookupSavedState s.current_state d).is_pinned,
            hidden := decide (d.uFlags &&& NIF_STATE ≠ 0)
              && (d.dwState == 1) },
    ?_, rfl, ?_, ?_, ?_⟩
  · rw [hmod]
    exact happly
  · rw [← hsaved]
  · intro hp
    rw [hmod]
    simp only at hp ⊢
    rw [hp]
    simp
  · intro hp
    rw [hmod]
    simp only at hp ⊢
    rw [hp]
    simp

/-- Witness for C7: with `is_pinned = true` saved under the path key, the
first notification for that path creates a widget placed in the pinned
group. -/
theorem C7_first_notification_placement_witness :
    ∃ w : IconWidget,
      (on_icon_modified c7State c7Data).icons = c7State.icons ++ [w] ∧
      w.wid = c7State.nextId ∧
      w.is_pinned = ((dictGet? c7State.current_state (stateKey c7Data)).getD
        ((dictGet? c7State.current_state c7Data.exe_path).getD
          { index := -1, is_pinned := false })).is_pinned ∧
      (w.is_pinned = true →
        (on_icon_modified c7State c7Data).pinned_layout
          = c7State.pinned_layout ++ [w.wid] ∧
        (on_icon_modified c7State c7Data).unpinned_layout
          = c7State.unpinned_layout) ∧
      (w.is_pinned = false →
        (on_icon_modified c7State c7Data).unpinned_layout
          = c7State.unpinned_layout ++ [w.wid] ∧
        (on_icon_modified c7State c7Data).pinned_layout
          = c7State.pinned_layout) :=
  C7_first_notification_placement c7State c7Data rfl rfl
    (by intro w hw; simp [c7State, initState] at hw)

/-! ### Sorting machinery (C2, C6) -/

theorem find?_wid_of_nodup (icons : List IconWidget)
    (hnd : (icons.map (fun w => w.wid)).Nodup) (w : IconWidget)
    (hw : w ∈ icons) :
    icons.find? (fun v => v.wid == w.wid) = some w := by
  induction icons with
  | nil => simp at hw
  | cons a rest ih =>
    simp only [List.map_cons, List.nodup_cons] at hnd
    rcases List.mem_cons.mp hw with h | h
    · subst h
      simp [List.find?_cons]
    · have hne : a.wid ≠ w.wid := by
        intro he
        exact hnd.1 (he ▸ List.mem_map_of_mem (fun v => v.wid) h)
      rw [List.find?_cons]
      have : (a.wid == w.wid) = false := by
        simp [hne]
      rw [this]
      exact ih hnd.2 h

theorem layoutWidgets_map_wid (icons : List IconWidget) (L : List Nat)
    (hnd : (icons.map (fun w => w.wid)).Nodup)
    (hL : ∀ id ∈ L, ∃ w ∈ icons, w.wid = id) :
    (layoutWidgets icons L).map (fun w => w.wid) = L := by
  induction L with
  | nil => simp [layoutWidgets]
  | cons id rest ih =>
    obtain ⟨w, hw, hwid⟩ := hL id (List.mem_cons_self id rest)
    have hfind : icons.find? (fun v => v.wid == id) = some w := by
      rw [← hwid]
      exact find?_wid_of_nodup icons hnd w hw
    rw [layoutWidgets, List.filterMap_cons, hfind]
    show w.wid :: (layoutWidgets icons rest).map (fun w => w.wid) = id :: rest
    rw [hwid, ih (fun a ha => hL a (List.mem_cons_of_mem id ha))]

theorem layoutWidgets_of_widlist (icons : List IconWidget)
    (ws : List IconWidget) (hnd : (icons.map (fun w => w.wid)).Nodup)
    (hsub : ∀ w ∈ ws, w ∈ icons) :
    layoutWidgets icons (ws.map (fun w => w.wid)) = ws := by
  induction ws with
  | nil => simp [layoutWidgets]
  | cons w rest ih =>
    rw [List.map_cons, layoutWidgets, List.filterMap_cons,
      find?_wid_of_nodup icons hnd w (hsub w (List.mem_cons_self w rest))]
    show w :: layoutWidgets icons (rest.map (fun w => w.wid)) = w :: rest
    rw [ih (fun a ha => hsub a (List.mem_cons_of_mem w ha))]

theorem mem_icons_of_mem_layoutWidgets (icons : List IconWidget)
    (L : List Nat) (w : IconWidget) (hw : w ∈ layoutWidgets icons L) :
    w ∈ icons := by
  obtain ⟨id, _, hfind⟩ := List.mem_filterMap.mp hw
  exact List.mem_of_find?_eq_some hfind

theorem insertIdx_append_self {α : Type} (pre rest : List α) (x : α) :
    (pre ++ rest).insertIdx pre.length x = pre ++ x :: rest := by
  induction pre with
  | nil => simp
  | cons a pre ih => simp [ih]

theorem reinsert_go (ws : List IconWidget) (pre rest : List Nat)
    (hperm : rest.Perm (ws.map (fun w => w.wid)))
    (hnd : (pre ++ rest).Nodup) :
    (ws.enumFrom pre.length).foldl
        (fun acc p => moveToIndex acc p.1 p.2.wid) (pre ++ rest)
      = pre ++ ws.map (fun w => w.wid) := by
  induction ws generalizing pre rest with
  | nil =>
    have : rest = [] := List.Perm.eq_nil (by simpa using hperm)
    simp [this]
  | cons w ws ih =>
    have hmem : w.wid ∈ rest := hperm.mem_iff.mpr (by simp)
    have hnotpre : w.wid ∉ pre := by
      intro hc
      exact (List.disjoint_of_nodup_append hnd) hc hmem
    have hstep : moveToIndex (pre ++ rest) pre.length w.wid
        = (pre ++ [w.wid]) ++ rest.erase w.wid := by
      rw [moveToIndex, List.erase_append_right _ hnotpre,
        insertIdx_append_self]
      simp
    have hperm2 : (rest.erase w.wid).Perm (ws.map (fun v => v.wid)) := by
      have h1 : (rest.erase w.wid).Perm
          ((w.wid :: ws.map (fun v => v.wid)).erase w.wid) :=
        hperm.erase w.wid
      rwa [List.erase_cons_head] at h1
    have hnd2 : ((pre ++ [w.wid]) ++ rest.erase w.wid).Nodup := by
      have hp : (pre ++ rest).Perm (pre ++ (w.wid :: rest.erase w.wid)) :=
        List.Perm.append_left pre (List.perm_cons_erase hmem)
      have := hp.nodup hnd
      simpa using this
    rw [List.enumFrom_cons, List.foldl_cons]
    show (ws.enumFrom (pre.length + 1)).foldl
        (fun acc p => moveToIndex acc p.1 p.2.wid)
        (moveToIndex (pre ++ rest) pre.length w.wid)
      = pre ++ (w :: ws).map (fun v => v.wid)
    rw [hstep]
    have hlen : pre.length + 1 = (pre ++ [w.wid]).length := by simp
    rw [hlen, ih (pre ++ [w.wid]) (rest.erase w.wid) hperm2 hnd2]
    simp

theorem reinsertSorted_eq (L : List Nat) (srt : List IconWidget)
    (hperm : L.Perm (srt.map (fun w => w.wid))) (hnd : L.Nodup) :
    reinsertSorted L srt = srt.map (fun w => w.wid) := by
  have := reinsert_go srt [] L hperm (by simpa using hnd)
  simpa [reinsertSorted, List.enum] using this

theorem sortLe_trans (cs : List (String × IconState)) :
    ∀ (a b c : IconWidget), sortLe cs a b → sortLe cs b c → sortLe cs a c := by
  intro a b c hab hbc
  simp only [sortLe, decide_eq_true_eq] at hab hbc ⊢
  omega

theorem sortLe_total (cs : List (String × IconState)) :
    ∀ (a b : IconWidget), sortLe cs a b || sortLe cs b a := by
  intro a b
  simp only [sortLe]
  by_cases h : get_sort_index cs a ≤ get_sort_index cs b
  · simp [h]
  · simp [le_of_not_le h]

/-- Characterization of the layouts produced by `sort_icons`: under
well-formedness of the layouts, each group's layout after the sort is the
stable merge sort (by `get_sort_index` against the pre-sort state) of the
group's widgets; the registry itself is untouched. -/
theorem sort_icons_layouts (s : SystrayState)
    (hnd : (s.icons.map (fun w => w.wid)).Nodup)
    (hU : ∀ id ∈ s.unpinned_layout, ∃ w ∈ s.icons, w.wid = id)
    (hP : ∀ id ∈ s.pinned_layout, ∃ w ∈ s.icons, w.wid = id)
    (hUnd : s.unpinned_layout.Nodup) (hPnd : s.pinned_layout.Nodup) :
    (sort_icons s).unpinned_layout
      = ((layoutWidgets s.icons s.unpinned_layout).mergeSort
          (sortLe s.current_state)).map (fun w => w.wid) ∧
    (sort_icons s).pinned_layout
      = ((layoutWidgets s.icons s.pinned_layout).mergeSort
          (sortLe s.current_state)).map (fun w => w.wid) ∧
    (sort_icons s).icons = s.icons := by
  have hUperm : s.unpinned_layout.Perm
      (((layoutWidgets s.icons s.unpinned_layout).mergeSort
        (sortLe s.current_state)).map (fun w => w.wid)) := by
    have h1 := List.mergeSort_perm (layoutWidgets s.icons s.unpinned_layout)
      (sortLe s.current_state)
    have h2 := h1.map (fun w => w.wid)
    rw [layoutWidgets_map_wid s.icons s.unpinned_layout hnd hU] at h2
    exact h2.symm
  have hPperm : s.pinned_layout.Perm
      (((layoutWidgets s.icons s.pinned_layout).mergeSort
        (sortLe s.current_state)).map (fun w => w.wid)) := by
    have h1 := List.mergeSort_perm (layoutWidgets s.icons s.pinned_layout)
      (sortLe s.current_state)
    have h2 := h1.map (fun w => w.wid)
    rw [layoutWidgets_map_wid s.icons s.pinned_layout hnd hP] at h2
    exact h2.symm
  refine ⟨?_, ?_, rfl⟩
  · exact reinsertSorted_eq _ _ hUperm hUnd
  · exact reinsertSorted_eq _ _ hPperm hPnd

/-! ### C2: sorter key resolution -/

theorem mergeSort_pair {α : Type} (le : α → α → Bool) (a b : α) :
    List.mergeSort [a, b] le = if le a b then [a, b] else [b, a] := by
  rw [List.mergeSort]
  simp only [List.splitInTwo_fst, List.splitInTwo_snd]
  by_cases h : le a b
  · simp [List.merge, h]
  · simp [List.merge, h]

/-- C2 counterexample: the claim's key (GUID key with path fallback) would
put the GUID-carrying widget (path entry index 0) before the GUID-less one
(index 5), but `sort_icons` puts it last: `get_sort_index` never falls back
to the path key, so the widget gets the 9999 sentinel. -/
theorem C2_counterexample :
    (sort_icons c2State).unpinned_layout = [2, 1] ∧
    ((layoutWidgets c2State.icons c2State.unpinned_layout).mergeSort
        (fun w v => get_sort_index_claimed c2State.current_state w
          ≤ get_sort_index_claimed c2State.current_state v)).map
      (fun w => w.wid) = [1, 2] ∧
    get_sort_index c2State.current_state c2w1 = 9999 ∧
    get_sort_index_claimed c2State.current_state c2w1 = 0 := by
  have hlw : layoutWidgets c2State.icons c2State.unpinned_layout
      = [c2w1, c2w2] := by decide
  refine ⟨?_, ?_, by decide, by decide⟩
  · obtain ⟨hu, -, -⟩ := sort_icons_layouts c2State (by decide) (by decide)
      (by decide) (by decide) (by decide)
    rw [hu, hlw, mergeSort_pair]
    have : sortLe c2State.current_state c2w1 c2w2 = false := by decide
    rw [this]
    decide
  · rw [hlw, mergeSort_pair]
    have : (decide (get_sort_index_claimed c2State.current_state c2w1
        ≤ get_sort_index_claimed c2State.current_state c2w2)) = true := by
      decide
    rw [this]
    decide

/-- C2 amended: each group's widget list is stable-sorted by
`get_sort_index`, where a widget with a GUID is keyed by the GUID string only
(no fallback to the path key: a missing GUID entry yields the 9999 sentinel
even when a path entry exists), a GUID-less widget is keyed by its path, and
unresolved widgets get 9999; the resulting layout is a permutation of the old
one, sorted by this key, and equal-key widgets keep their relative order. -/
theorem C2_sorter_key_resolution (s : SystrayState)
    (hnd : (s.icons.map (fun w => w.wid)).Nodup)
    (hU : ∀ id ∈ s.unpinned_layout, ∃ w ∈ s.icons, w.wid = id)
    (hP : ∀ id ∈ s.pinned_layout, ∃ w ∈ s.icons, w.wid = id)
    (hUnd : s.unpinned_layout.Nodup) (hPnd : s.pinned_layout.Nodup) :
    ((sort_icons s).unpinned_layout).Perm s.unpinned_layout ∧
    ((sort_icons s).pinned_layout).Perm s.pinned_layout ∧
    (layoutWidgets s.icons (sort_icons s).unpinned_layout).Pairwise
      (fun w v => get_sort_index s.current_state w
        ≤ get_sort_index s.current_state v) ∧
    (layoutWidgets s.icons (sort_icons s).pinned_layout).Pairwise
      (fun w v => get_sort_index s.current_state w
        ≤ get_sort_index s.current_state v) ∧
    (∀ w v, [w, v].Sublist (layoutWidgets s.icons s.unpinned_layout) →
      get_sort_index s.current_state w ≤ get_sort_index s.current_state v →
      [w, v].Sublist (layoutWidgets s.icons (sort_icons s).unpinned_layout)) ∧
    (∀ w v, [w, v].Sublist (layoutWidgets s.icons s.pinned_layout) →
      get_sort_index s.current_state w ≤ get_sort_index s.current_state v →
      [w, v].Sublist (layoutWidgets s.icons (sort_icons s).pinned_layout)) ∧
    (∀ w d g, w.data = some d → d.guid = some g →
      dictGet? s.current_state (toString g) = none →
      get_sort_index s.current_state w = 9999) ∧
    (∀ w d st, w.data = some d → d.guid = none →
      dictGet? s.current_state d.exe_path = some st →
      get_sort_index s.current_state w = st.index) := by
  obtain ⟨hU', hP', hicons⟩ := sort_icons_layouts s hnd hU hP hUnd hPnd
  have hsubU : ∀ w ∈ (layoutWidgets s.icons s.unpinned_layout).mergeSort
      (sortLe s.current_state), w ∈ s.icons := by
    intro w hw
    exact mem_icons_of_mem_layoutWidgets s.icons s.unpinned_layout w
      (List.mem_mergeSort.mp hw)
  have hsubP : ∀ w ∈ (layoutWidgets s.icons s.pinned_layout).mergeSort
      (sortLe s.current_state), w ∈ s.icons := by
    intro w hw
    exact mem_icons_of_mem_layoutWidgets s.icons s.pinned_layout w
      (List.mem_mergeSort.mp hw)
  have hlwU : layoutWidgets s.icons (sort_icons s).unpinned_layout
      = (layoutWidgets s.icons s.unpinned_layout).mergeSort
        (sortLe s.current_state) := by
    rw [hU']
    exact layoutWidgets_of_widlist s.icons _ hnd hsubU
  have hlwP : layoutWidgets s.icons (sort_icons s).pinned_layout
      = (layoutWidgets s.icons s.pinned_layout).mergeSort
        (sortLe s.current_state) := by
    rw [hP']
    exact layoutWidgets_of_widlist s.icons _ hnd hsubP
  refine ⟨?_, ?_, ?_, ?_, ?_, ?_, ?_, ?_⟩
  · rw [hU']
    have h2 := (List.mergeSort_perm (layoutWidgets s.icons s.unpinned_layout)
      (sortLe s.current_state)).map (fun w => w.wid)
    rw [layoutWidgets_map_wid s.icons s.unpinned_layout hnd hU] at h2
    exact h2
  · rw [hP']
    have h2 := (List.mergeSort_perm (layoutWidgets s.icons s.pinned_layout)
      (sortLe s.current_state)).map (fun w => w.wid)
    rw [layoutWidgets_map_wid s.icons s.pinned_layout hnd hP] at h2
    exact h2
  · rw [hlwU]
    have := @List.sorted_mergeSort IconWidget (sortLe s.current_state)
      (sortLe_trans s.current_state) (sortLe_total s.current_state)
      (layoutWidgets s.icons s.unpinned_layout)
    exact this.imp (fun h => by simpa [sortLe] using h)
  · rw [hlwP]
    have := @List.sorted_mergeSort IconWidget (sortLe s.current_state)
      (sortLe_trans s.current_state) (sortLe_total s.current_state)
      (layoutWidgets s.icons s.pinned_layout)
    exact this.imp (fun h => by simpa [sortLe] using h)
  · intro w v hsub hle
    rw [hlwU]
    exact List.pair_sublist_mergeSort (sortLe_trans s.current_state)
      (sortLe_total s.current_state) (by simpa [sortLe] using hle) hsub
  · intro w v hsub hle
    rw [hlwP]
    exact List.pair_sublist_mergeSort (sortLe_trans s.current_state)
      (sortLe_total s.current_state) (by simpa [sortLe] using hle) hsub
  · intro w d g hd hg hget
    have hk : stateKey d = toString g := by rw [stateKey, hg]
    simp [get_sort_index, hd, hk, hget]
  · intro w d st hd hg hget
    have hk : stateKey d = d.exe_path := by rw [stateKey, hg]
    simp [get_sort_index, hd, hk, hget]

/-- Witness for the amended C2 at the concrete two-icon state. -/
theorem C2_sorter_key_resolution_witness :
    ((sort_icons c2State).unpinned_layout).Perm c2State.unpinned_layout ∧
    ((sort_icons c2State).pinned_layout).Perm c2State.pinned_layout ∧
    (layoutWidgets c2State.icons (sort_icons c2State).unpinned_layout).Pairwise
      (fun w v => get_sort_index c2State.current_state w
        ≤ get_sort_index c2State.current_state v) ∧
    (layoutWidgets c2State.icons (sort_icons c2State).pinned_layout).Pairwise
      (fun w v => get_sort_index c2State.current_state w
        ≤ get_sort_index c2State.current_state v) ∧
    (∀ w v, [w, v].Sublist
        (layoutWidgets c2State.icons c2State.unpinned_layout) →
      get_sort_index c2State.current_state w
        ≤ get_sort_index c2State.current_state v →
      [w, v].Sublist
        (layoutWidgets c2State.icons (sort_icons c2State).unpinned_layout)) ∧
    (∀ w v, [w, v].Sublist
        (layoutWidgets c2State.icons c2State.pinned_layout) →
      get_sort_index c2State.current_state w
        ≤ get_sort_index c2State.current_state v →
      [w, v].Sublist
        (layoutWidgets c2State.icons (sort_icons c2State).pinned_layout)) ∧
    (∀ w d g, w.data = some d → d.guid = some g →
      dictGet? c2State.current_state (toString g) = none →
      get_sort_index c2State.current_state w = 9999) ∧
    (∀ w d st, w.data = some d → d.guid = none →
      dictGet? c2State.current_state d.exe_path = some st →
      get_sort_index c2State.current_state w = st.index) :=
  C2_sorter_key_resolution c2State (by decide) (by decide) (by decide)
    (by decide) (by decide)

/-! ### C6: sorting idempotence -/

theorem dictGet?_of_mem_nodup {V : Type} (l : List (String × V))
    (hnd : (l.map Prod.fst).Nodup) (k : String) (v : V)
    (hmem : (k, v) ∈ l) : dictGet? l k = some v := by
  induction l with
  | nil => simp at hmem
  | cons p rest ih =>
    obtain ⟨k1, v1⟩ := p
    simp only [List.map_cons, List.nodup_cons] at hnd
    rcases List.mem_cons.mp hmem with h | h
    · obtain ⟨hk, hv⟩ := Prod.mk.injEq .. ▸ h
      injection h with h1 h2
      subst h1
      rw [dictGet?, if_pos rfl, h2]
    · have hk : k ∈ rest.map Prod.fst := by
        exact List.mem_map_of_mem Prod.fst h
      have hne : k1 ≠ k := fun he => hnd.1 (he ▸ hk)
      rw [dictGet?, if_neg hne]
      exact ih hnd.2 h

theorem snapEntries_keys (s' : SystrayState) (l : List IconWidget)
    (hdat : ∀ v ∈ l, v.data.isSome) (hvis : ∀ v ∈ l, v.hidden = false) :
    (l.filterMap (snapEntry s')).map Prod.fst
      = l.filterMap (fun v => v.data.map stateKey) := by
  induction l with
  | nil => simp
  | cons v rest ih =>
    obtain ⟨d, hd⟩ := Option.isSome_iff_exists.mp
      (hdat v (List.mem_cons_self v rest))
    have hh : v.hidden = false := hvis v (List.mem_cons_self v rest)
    have hsnap : snapEntry s' v = some (stateKey d,
        { index := widgetIndex s' v, is_pinned := v.is_pinned }) := by
      rw [snapEntry, hd, hh]
      simp
    rw [List.filterMap_cons, List.filterMap_cons, hsnap, hd]
    show stateKey d :: (rest.filterMap (snapEntry s')).map Prod.fst = _
    rw [ih (fun a ha => hdat a (List.mem_cons_of_mem v ha))
      (fun a ha => hvis a (List.mem_cons_of_mem v ha))]
    simp

/-- After the snapshot, the sort key of every live, visible widget (under the
snapshot's key-uniqueness) is exactly its current layout index. -/
theorem get_sort_index_after_snapshot (s' : SystrayState) (w : IconWidget)
    (d : IconData) (hw : w ∈ s'.icons) (hd : w.data = some d)
    (hh : w.hidden = false)
    (hdat : ∀ v ∈ s'.icons, v.data.isSome)
    (hvis : ∀ v ∈ s'.icons, v.hidden = false)
    (hkeys : (s'.icons.filterMap (fun v => v.data.map stateKey)).Nodup) :
    get_sort_index (update_current_state s').current_state w
      = widgetIndex s' w := by
  have hkeys' : ((s'.icons.filterMap (snapEntry s')).map Prod.fst).Nodup := by
    rw [snapEntries_keys s' s'.icons hdat hvis]
    exact hkeys
  have hmem : (stateKey d,
      ({ index := widgetIndex s' w, is_pinned := w.is_pinned } : IconState))
      ∈ s'.icons.filterMap (snapEntry s') := by
    refine List.mem_filterMap.mpr ⟨w, hw, ?_⟩
    rw [snapEntry, hd, hh]
    simp
  have hent : dictGet? (s'.icons.filterMap (snapEntry s')) (stateKey d)
      = some { index := widgetIndex s' w, is_pinned := w.is_pinned } :=
    dictGet?_of_mem_nodup _ hkeys' _ _ hmem
  have hofl : dictGet? (dictOfList (s'.icons.filterMap (snapEntry s')))
      (stateKey d)
      = some { index := widgetIndex s' w, is_pinned := w.is_pinned } := by
    rw [dictGet?_ofList, dictGet?_reverse_of_nodup _ hkeys', hent]
  have hcs : (update_current_state s').current_state
      = dictUnion s'.current_state
        (dictOfList (s'.icons.filterMap (snapEntry s'))) := rfl
  have hget : dictGet? (update_current_state s').current_state (stateKey d)
      = some { index := widgetIndex s' w, is_pinned := w.is_pinned } := by
    rw [hcs, dictGet?_union,
      dictGet?_reverse_of_nodup _ (dictOfList_keys_nodup _), hofl]
    rfl
  rw [get_sort_index, hd]
  show (match dictGet? (update_current_state s').current_state (stateKey d)
    with
    | some st => st.index
    | none => 9999) = widgetIndex s' w
  rw [hget]

theorem idxOf?_getElem_of_nodup (L : List Nat) (hnd : L.Nodup) (i : Nat)
    (hi : i < L.length) : idxOf? L (L[i]) = some i := by
  induction L generalizing i with
  | nil => simp at hi
  | cons a rest ih =>
    rcases i with _ | n
    · simp [idxOf?]
    · have hn : n < rest.length := by simpa using hi
      have hmem : rest[n] ∈ rest := List.getElem_mem hn
      have hane : (a == rest[n]) = false := by
        simp only [List.nodup_cons] at hnd
        simp only [beq_eq_false_iff_ne, ne_eq]
        intro he
        exact hnd.1 (he ▸ hmem)
      show (a :: rest).findIdx? (fun x => x == rest[n]) = some (n + 1)
      rw [List.findIdx?_cons, hane]
      simp only [Bool.false_eq_true, if_false]
      rw [List.findIdx?_succ]
      have := ih (List.nodup_cons.mp hnd).2 n hn
      rw [idxOf?] at this
      rw [this]
      rfl

theorem idxOf?_eq_none_of_not_mem (L : List Nat) (id : Nat) (h : id ∉ L) :
    idxOf? L id = none := by
  rw [idxOf?, List.findIdx?_eq_none_iff]
  intro x hx
  simp only [beq_eq_false_iff_ne, ne_eq]
  intro he
  exact h (he ▸ hx)

/-- C6 amended: with no hidden icon widgets and pairwise-distinct identity
keys, sorting twice in a row with no intervening change yields the same order
in both groups (the claim's inclusion of hidden widgets fails: a hidden
widget keeps its stale saved index while its visible neighbors are
re-indexed, so a second sort can reorder — see the counterexample). -/
theorem C6_sort_idempotent (s : SystrayState)
    (hnd : (s.icons.map (fun w => w.wid)).Nodup)
    (hU : ∀ id ∈ s.unpinned_layout, ∃ w ∈ s.icons, w.wid = id)
    (hP : ∀ id ∈ s.pinned_layout, ∃ w ∈ s.icons, w.wid = id)
    (hUnd : s.unpinned_layout.Nodup) (hPnd : s.pinned_layout.Nodup)
    (hdisj : ∀ id ∈ s.unpinned_layout, id ∉ s.pinned_layout)
    (hvis : ∀ w ∈ s.icons, w.hidden = false)
    (hdat : ∀ w ∈ s.icons, w.data.isSome)
    (hkeys : (s.icons.filterMap (fun w => w.data.map stateKey)).Nodup) :
    (sort_icons (sort_icons s)).unpinned_layout
      = (sort_icons s).unpinned_layout ∧
    (sort_icons (sort_icons s)).pinned_layout
      = (sort_icons s).pinned_layout := by
  obtain ⟨hU1, hP1, hicons1⟩ := sort_icons_layouts s hnd hU hP hUnd hPnd
  have hsubU : ∀ w ∈ (layoutWidgets s.icons s.unpinned_layout).mergeSort
      (sortLe s.current_state), w ∈ s.icons := fun w hw =>
    mem_icons_of_mem_layoutWidgets s.icons s.unpinned_layout w
      (List.mem_mergeSort.mp hw)
  have hsubP : ∀ w ∈ (layoutWidgets s.icons s.pinned_layout).mergeSort
      (sortLe s.current_state), w ∈ s.icons := fun w hw =>
    mem_icons_of_mem_layoutWidgets s.icons s.pinned_layout w
      (List.mem_mergeSort.mp hw)
  have hUperm : s.unpinned_layout.Perm ((sort_icons s).unpinned_layout) := by
    rw [hU1]
    have h2 := (List.mergeSort_perm (layoutWidgets s.icons s.unpinned_layout)
      (sortLe s.current_state)).map (fun w => w.wid)
    rw [layoutWidgets_map_wid s.icons s.unpinned_layout hnd hU] at h2
    exact h2.symm
  have hPperm : s.pinned_layout.Perm ((sort_icons s).pinned_layout) := by
    rw [hP1]
    have h2 := (List.mergeSort_perm (layoutWidgets s.icons s.pinned_layout)
      (sortLe s.current_state)).map (fun w => w.wid)
    rw [layoutWidgets_map_wid s.icons s.pinned_layout hnd hP] at h2
    exact h2.symm
  have hU1nd : ((sort_icons s).unpinned_layout).Nodup := hUperm.nodup hUnd
  have hP1nd : ((sort_icons s).pinned_layout).Nodup := hPperm.nodup hPnd
  have hdisj1 : ∀ id ∈ (sort_icons s).unpinned_layout,
      id ∉ (sort_icons s).pinned_layout := by
    intro id hid hidP
    exact hdisj id (hUperm.mem_iff.mpr hid) (hPperm.mem_iff.mpr hidP)
  -- the intermediate state on which the snapshot is taken
  have hs1 : sort_icons s = update_current_state
      { s with
        unpinned_layout := reinsertSorted s.unpinned_layout
          ((layoutWidgets s.icons s.unpinned_layout).mergeSort
            (sortLe s.current_state))
        pinned_layout := reinsertSorted s.pinned_layout
          ((layoutWidgets s.icons s.pinned_layout).mergeSort
            (sortLe s.current_state)) } := rfl
  have hMidU : (({ s with
      unpinned_layout := reinsertSorted s.unpinned_layout
        ((layoutWidgets s.icons s.unpinned_layout).mergeSort
          (sortLe s.current_state))
      pinned_layout := reinsertSorted s.pinned_layout
        ((layoutWidgets s.icons s.pinned_layout).mergeSort
          (sortLe s.current_state)) } : SystrayState)).unpinned_layout
      = (sort_icons s).unpinned_layout := rfl
  have hMidP : (({ s with
      unpinned_layout := reinsertSorted s.unpinned_layout
        ((layoutWidgets s.icons s.unpinned_layout).mergeSort
          (sortLe s.current_state))
      pinned_layout := reinsertSorted s.pinned_layout
        ((layoutWidgets s.icons s.pinned_layout).mergeSort
          (sortLe s.current_state)) } : SystrayState)).pinned_layout
      = (sort_icons s).pinned_layout := rfl
  generalize hMid : ({ s with
      unpinned_layout := reinsertSorted s.unpinned_layout
        ((layoutWidgets s.icons s.unpinned_layout).mergeSort
          (sortLe s.current_state))
      pinned_layout := reinsertSorted s.pinned_layout
        ((layoutWidgets s.icons s.pinned_layout).mergeSort
          (sortLe s.current_state)) } : SystrayState) = sMid at hs1 hMidU hMidP
  have hMidIcons : sMid.icons = s.icons := by rw [← hMid]
  have hMidCs : (sort_icons s).current_state
      = (update_current_state sMid).current_state := by rw [hs1]
  -- key-at-position, unpinned group
  have hkeyU : ∀ (i : Nat)
      (hi : i < ((layoutWidgets s.icons s.unpinned_layout).mergeSort
        (sortLe s.current_state)).length),
      get_sort_index (sort_icons s).current_state
        (((layoutWidgets s.icons s.unpinned_layout).mergeSort
          (sortLe s.current_state))[i]) = (i : Int) := by
    intro i hi
    set srtU := (layoutWidgets s.icons s.unpinned_layout).mergeSort
      (sortLe s.current_state) with hsrtU
    have hw : srtU[i] ∈ s.icons := hsubU _ (List.getElem_mem hi)
    obtain ⟨d, hd⟩ := Option.isSome_iff_exists.mp (hdat _ hw)
    have hiU : i < ((sort_icons s).unpinned_layout).length := by
      rw [hU1, List.length_map]
      exact hi
    have hwid : ((sort_icons s).unpinned_layout)[i] = srtU[i].wid := by
      rw [List.getElem_of_eq hU1 hiU]
      simp
    have hidx : idxOf? (sort_icons s).unpinned_layout (srtU[i]).wid
        = some i := by
      rw [← hwid]
      exact idxOf?_getElem_of_nodup _ hU1nd i hiU
    have hwidx : widgetIndex sMid srtU[i] = (i : Int) := by
      rw [widgetIndex, hMidU, hidx]
    rw [hMidCs]
    rw [get_sort_index_after_snapshot sMid srtU[i] d
      (by rw [hMidIcons]; exact hw) hd (hvis _ hw)
      (by rw [hMidIcons]; exact hdat) (by rw [hMidIcons]; exact hvis)
      (by rw [hMidIcons]; exact hkeys)]
    exact hwidx
  -- key-at-position, pinned group
  have hkeyP : ∀ (i : Nat)
      (hi : i < ((layoutWidgets s.icons s.pinned_layout).mergeSort
        (sortLe s.current_state)).length),
      get_sort_index (sort_icons s).current_state
        (((layoutWidgets s.icons s.pinned_layout).mergeSort
          (sortLe s.current_state))[i]) = (i : Int) := by
    intro i hi
    set srtP := (layoutWidgets s.icons s.pinned_layout).mergeSort
      (sortLe s.current_state) with hsrtP
    have hw : srtP[i] ∈ s.icons := hsubP _ (List.getElem_mem hi)
    obtain ⟨d, hd⟩ := Option.isSome_iff_exists.mp (hdat _ hw)
    have hiP : i < ((sort_icons s).pinned_layout).length := by
      rw [hP1, List.length_map]
      exact hi
    have hwid : ((sort_icons s).pinned_layout)[i] = srtP[i].wid := by
      rw [List.getElem_of_eq hP1 hiP]
      simp
    have hmemP : (srtP[i]).wid ∈ (sort_icons s).pinned_layout := by
      rw [← hwid]
      exact List.getElem_mem hiP
    have hnotU : (srtP[i]).wid ∉ (sort_icons s).unpinned_layout := by
      intro hc
      exact hdisj1 _ hc hmemP
    have hidxU : idxOf? (sort_icons s).unpinned_layout (srtP[i]).wid
        = none := idxOf?_eq_none_of_not_mem _ _ hnotU
    have hidxP : idxOf? (sort_icons s).pinned_layout (srtP[i]).wid
        = some i := by
      rw [← hwid]
      exact idxOf?_getElem_of_nodup _ hP1nd i hiP
    have hwidx : widgetIndex sMid srtP[i] = (i : Int) := by
      rw [widgetIndex, hMidU, hMidP, hidxU, hidxP]
    rw [hMidCs]
    rw [get_sort_index_after_snapshot sMid srtP[i] d
      (by rw [hMidIcons]; exact hw) hd (hvis _ hw)
      (by rw [hMidIcons]; exact hdat) (by rw [hMidIcons]; exact hvis)
      (by rw [hMidIcons]; exact hkeys)]
    exact hwidx
  -- the widget lists are already sorted for the second pass
  have hpairU : ((layoutWidgets s.icons s.unpinned_layout).mergeSort
      (sortLe s.current_state)).Pairwise
      (fun a b => sortLe (sort_icons s).current_state a b = true) := by
    rw [List.pairwise_iff_getElem]
    intro i j hi hj hij
    simp only [sortLe, decide_eq_true_eq]
    rw [hkeyU i hi, hkeyU j hj]
    exact_mod_cast Nat.le_of_lt hij
  have hpairP : ((layoutWidgets s.icons s.pinned_layout).mergeSort
      (sortLe s.current_state)).Pairwise
      (fun a b => sortLe (sort_icons s).current_state a b = true) := by
    rw [List.pairwise_iff_getElem]
    intro i j hi hj hij
    simp only [sortLe, decide_eq_true_eq]
    rw [hkeyP i hi, hkeyP j hj]
    exact_mod_cast Nat.le_of_lt hij
  -- characterize the second sort
  have hU2 : ∀ id ∈ (sort_icons s).unpinned_layout,
      ∃ w ∈ (sort_icons s).icons, w.wid = id := by
    intro id hid
    rw [hU1] at hid
    obtain ⟨w, hw, hwid⟩ := List.mem_map.mp hid
    exact ⟨w, by rw [hicons1]; exact hsubU w hw, hwid⟩
  have hP2 : ∀ id ∈ (sort_icons s).pinned_layout,
      ∃ w ∈ (sort_icons s).icons, w.wid = id := by
    intro id hid
    rw [hP1] at hid
    obtain ⟨w, hw, hwid⟩ := List.mem_map.mp hid
    exact ⟨w, by rw [hicons1]; exact hsubP w hw, hwid⟩
  obtain ⟨hU1', hP1', -⟩ := sort_icons_layouts (sort_icons s)
    (by rw [hicons1]; exact hnd) hU2 hP2 hU1nd hP1nd
  have hlw2U : layoutWidgets (sort_icons s).icons
      (sort_icons s).unpinned_layout
      = (layoutWidgets s.icons s.unpinned_layout).mergeSort
        (sortLe s.current_state) := by
    rw [hicons1, hU1]
    exact layoutWidgets_of_widlist s.icons _ hnd hsubU
  have hlw2P : layoutWidgets (sort_icons s).icons
      (sort_icons s).pinned_layout
      = (layoutWidgets s.icons s.pinned_layout).mergeSort
        (sortLe s.current_state) := by
    rw [hicons1, hP1]
    exact layoutWidgets_of_widlist s.icons _ hnd hsubP
  constructor
  · rw [hU1', hlw2U, List.mergeSort_of_sorted hpairU, hU1]
  · rw [hP1', hlw2P, List.mergeSort_of_sorted hpairP, hP1]

theorem mergeSort_triple {α : Type} (le : α → α → Bool) (a b c : α) :
    List.mergeSort [a, b, c] le
      = (List.mergeSort [a, b] le).merge [c] le := by
  rw [List.mergeSort]
  simp only [List.splitInTwo_fst, List.splitInTwo_snd]
  norm_num

/-- C6 counterexample: with a hidden widget present, sorting is not
idempotent.  The first sort keeps the order `[0, 1, 2]` (saved indices 5, 7,
9) and re-indexes only the visible widgets (0 and 2) to positions 0 and 2,
while the hidden widget keeps its stale index 7; the second sort therefore
reorders to `[0, 2, 1]`. -/
theorem C6_counterexample :
    c6w1.hidden = true ∧
    (sort_icons c6State).unpinned_layout = [0, 1, 2] ∧
    (sort_icons (sort_icons c6State)).unpinned_layout = [0, 2, 1] := by
  have hlw : layoutWidgets c6State.icons c6State.unpinned_layout
      = [c6w0, c6w1, c6w2] := by decide
  have hlwP : layoutWidgets c6State.icons c6State.pinned_layout = [] := by
    decide
  have hpair0 : List.Pairwise
      (fun a b => sortLe c6State.current_state a b = true)
      [c6w0, c6w1, c6w2] := by decide
  have hms1 : List.mergeSort [c6w0, c6w1, c6w2]
      (sortLe c6State.current_state) = [c6w0, c6w1, c6w2] :=
    List.mergeSort_of_sorted hpair0
  have harg : ({ c6State with
      unpinned_layout := reinsertSorted c6State.unpinned_layout
        ((layoutWidgets c6State.icons c6State.unpinned_layout).mergeSort
          (sortLe c6State.current_state))
      pinned_layout := reinsertSorted c6State.pinned_layout
        ((layoutWidgets c6State.icons c6State.pinned_layout).mergeSort
          (sortLe c6State.current_state)) } : SystrayState)
      = { c6State with unpinned_layout := [0, 1, 2], pinned_layout := [] } := by
    rw [hlw, hms1, hlwP, List.mergeSort_nil]
    decide
  have hs1 : sort_icons c6State = c6State1 := by
    show update_current_state _ = _
    rw [harg]
    rfl
  have h1 : (sort_icons c6State).unpinned_layout = [0, 1, 2] := by
    rw [hs1]
    decide
  refine ⟨rfl, h1, ?_⟩
  rw [hs1]
  show reinsertSorted c6State1.unpinned_layout
    ((layoutWidgets c6State1.icons c6State1.unpinned_layout).mergeSort
      (sortLe c6State1.current_state)) = [0, 2, 1]
  have hlw2 : layoutWidgets c6State1.icons c6State1.unpinned_layout
      = [c6w0, c6w1, c6w2] := by decide
  have h01 : sortLe c6State1.current_state c6w0 c6w1 = true := by decide
  have h02 : sortLe c6State1.current_state c6w0 c6w2 = true := by decide
  have h12 : ¬ sortLe c6State1.current_state c6w1 c6w2 = true := by decide
  rw [hlw2, mergeSort_triple, mergeSort_pair, if_pos h01,
    List.cons_merge_cons_pos _ _ _ h02,
    List.cons_merge_cons_neg _ _ _ h12, List.merge_right]
  decide

/-- Witness for the amended C6 at the concrete all-visible two-icon state. -/
theorem C6_sort_idempotent_witness :
    (sort_icons (sort_icons c2State)).unpinned_layout
      = (sort_icons c2State).unpinned_layout ∧
    (sort_icons (sort_icons c2State)).pinned_layout
      = (sort_icons c2State).pinned_layout :=
  C6_sort_idempotent c2State (by decide) (by decide) (by decide) (by decide)
    (by decide) (by decide) (by decide) (by decide) (by decide)

theorem applyDataToIcon_map_wid (icons : List IconWidget) (x : Nat)
    (d : IconData) :
    (applyDataToIcon icons x d).map (fun w => w.wid)
      = icons.map (fun w => w.wid) := by
  rw [applyDataToIcon, List.map_map]
  apply List.map_congr_left
  intro w _
  by_cases h : w.wid = x <;> simp [h]

theorem applyDataToIcon_decomp (l1 l2 : List IconWidget) (w : IconWidget)
    (d : IconData)
    (hnd : ((l1 ++ w :: l2).map (fun v => v.wid)).Nodup) :
    applyDataToIcon (l1 ++ w :: l2) w.wid d
      = l1 ++
        ({ w with
           data := w.data.map (fun o => update_icon_data o d)
           hidden := decide (d.uFlags &&& NIF_STATE ≠ 0)
             && (d.dwState == 1) } : IconWidget) :: l2 := by
  have hnd2 : (w.wid ::
      ((l1.map (fun v => v.wid)) ++ (l2.map (fun v => v.wid)))).Nodup := by
    rw [← List.nodup_middle]
    simpa using hnd
  have hmid : w.wid ∉ (l1.map (fun v => v.wid)) ++ (l2.map (fun v => v.wid))
      ∧ ((l1.map (fun v => v.wid)) ++ (l2.map (fun v => v.wid))).Nodup :=
    List.nodup_cons.mp hnd2
  rw [applyDataToIcon, List.map_append, List.map_cons]
  have h1 : l1.map (fun v =>
      if v.wid = w.wid then
        { v with
          data := v.data.map (fun o => update_icon_data o d)
          hidden := decide (d.uFlags &&& NIF_STATE ≠ 0)
            && (d.dwState == 1) }
      else v) = l1 := by
    apply List.map_congr_left ?_ |>.trans (List.map_id l1)
    intro v hv
    have : v.wid ≠ w.wid := by
      intro he
      exact hmid.1 (List.mem_append.mpr (Or.inl
        (he ▸ List.mem_map_of_mem (fun v => v.wid) hv)))
    simp [this]
  have h2 : l2.map (fun v =>
      if v.wid = w.wid then
        { v with
          data := v.data.map (fun o => update_icon_data o d)
          hidden := decide (d.uFlags &&& NIF_STATE ≠ 0)
            && (d.dwState == 1) }
      else v) = l2 := by
    apply List.map_congr_left ?_ |>.trans (List.map_id l2)
    intro v hv
    have : v.wid ≠ w.wid := by
      intro he
      exact hmid.1 (List.mem_append.mpr (Or.inr
        (he ▸ List.mem_map_of_mem (fun v => v.wid) hv)))
    simp [this]
  rw [h1, h2]
  simp

theorem applyDataToIcon_append_fresh (icons : List IconWidget)
    (w0 : IconWidget) (d : IconData)
    (hfresh : ∀ w ∈ icons, w.wid ≠ w0.wid) :
    applyDataToIcon (icons ++ [w0]) w0.wid d
      = icons ++
        [({ w0 with
            data := w0.data.map (fun o => update_icon_data o d)
            hidden := decide (d.uFlags &&& NIF_STATE ≠ 0)
              && (d.dwState == 1) } : IconWidget)] := by
  rw [applyDataToIcon, List.map_append]
  congr 1
  · apply List.map_congr_left ?_ |>.trans (List.map_id icons)
    intro w hw
    simp [hfresh w hw]
  · simp

theorem guidMatches_eq_true_iff (g : Nat) (w : IconWidget) :
    guidMatches g w = true ↔ ∃ od, w.data = some od ∧ od.guid = some g := by
  cases hd : w.data with
  | none => simp [guidMatches, hd]
  | some od => simp [guidMatches, hd]

theorem hwndUidMatches_data_isSome (h u : Nat) (w : IconWidget)
    (hm : hwndUidMatches h u w = true) : ∃ od, w.data = some od := by
  cases hd : w.data with
  | none => rw [hwndUidMatches, hd] at hm; simp at hm
  | some od => exact ⟨od, rfl⟩

theorem not_mem_entryGuids_of_no_guidMatches (s : SystrayState) (g : Nat)
    (hall : ∀ w ∈ s.icons, guidMatches g w = false) :
    g ∉ entryGuids s := by
  intro hg
  obtain ⟨w, hw, hwg⟩ := List.mem_filterMap.mp hg
  cases hd : w.data with
  | none => rw [hd] at hwg; simp at hwg
  | some od =>
    rw [hd] at hwg
    have htrue : guidMatches g w = true :=
      (guidMatches_eq_true_iff g w).mpr ⟨od, hd, by simpa using hwg⟩
    rw [hall w hw] at htrue
    exact Bool.false_ne_true htrue

/-! ### C9: registry identity uniqueness -/

theorem filterMap_middle {α β : Type} (f : α → Option β) (l1 l2 : List α)
    (x : α) :
    List.filterMap f (l1 ++ x :: l2)
      = l1.filterMap f ++ ((f x).toList ++ l2.filterMap f) := by
  rw [List.filterMap_append, List.filterMap_cons]
  cases f x <;> simp

theorem nodup_mid_update (A B : List Nat) (xold xnew : Option Nat)
    (hold : (A ++ (xold.toList ++ B)).Nodup)
    (hfresh : ∀ g, xnew = some g → g ∉ A ++ (xold.toList ++ B)) :
    (A ++ (xnew.toList ++ B)).Nodup := by
  have base : (A ++ B).Nodup := by
    cases xold with
    | none => simpa using hold
    | some h0 =>
      have h1 : (A ++ h0 :: B).Nodup := by simpa using hold
      exact (List.nodup_cons.mp (List.nodup_middle.mp h1)).2
  cases xnew with
  | none => simpa using base
  | some g =>
    have hg : g ∉ A ++ B := by
      intro hc
      apply hfresh g rfl
      rcases List.mem_append.mp hc with hA | hB
      · exact List.mem_append.mpr (Or.inl hA)
      · exact List.mem_append.mpr
          (Or.inr (List.mem_append.mpr (Or.inr hB)))
    show (A ++ g :: B).Nodup
    exact List.nodup_middle.mpr (List.nodup_cons.mpr ⟨hg, base⟩)

theorem updated_guid (od : IconData) (d : IconData) :
    (update_icon_data od d).guid
      = if d.uFlags &&& NIF_GUID ≠ 0 then d.guid else od.guid := rfl

theorem find_icon_eq_some_cases (icons : List IconWidget)
    (uuid : Option Nat) (h u : Nat) (icon : IconWidget)
    (hf : find_icon icons uuid h u = some icon) :
    (∃ g, uuid = some g ∧ icons.find? (guidMatches g) = some icon) ∨
    ((∀ g, uuid = some g → ∀ w ∈ icons, guidMatches g w = false) ∧
      icons.find? (hwndUidMatches h u) = some icon) := by
  cases uuid with
  | none => exact Or.inr ⟨(fun g hg => nomatch hg), hf⟩
  | some g =>
    rw [find_icon] at hf
    cases hq : icons.find? (guidMatches g) with
    | some w =>
      rw [hq] at hf
      exact Or.inl ⟨g, rfl, by rw [hq]; exact hf⟩
    | none =>
      rw [hq] at hf
      refine Or.inr ⟨?_, hf⟩
      intro g2 hg2 w hw
      injection hg2 with hg2
      subst hg2
      have := List.find?_eq_none.mp hq w hw
      simpa using this

theorem find_icon_eq_none_parts (icons : List IconWidget)
    (uuid : Option Nat) (h u : Nat)
    (hf : find_icon icons uuid h u = none) :
    (∀ g, uuid = some g → ∀ w ∈ icons, guidMatches g w = false) ∧
    icons.find? (hwndUidMatches h u) = none := by
  cases uuid with
  | none => exact ⟨(fun g hg => nomatch hg), hf⟩
  | some g =>
    rw [find_icon] at hf
    cases hq : icons.find? (guidMatches g) with
    | some w => rw [hq] at hf; cases hf
    | none =>
      rw [hq] at hf
      refine ⟨?_, hf⟩
      intro g2 hg2 w hw
      injection hg2 with hg2
      subst hg2
      have := List.find?_eq_none.mp hq w hw
      simpa using this

theorem applyDataToIcon_wid_mem (icons : List IconWidget) (x : Nat)
    (d : IconData) (w2 : IconWidget)
    (hw2 : w2 ∈ applyDataToIcon icons x d) :
    ∃ w ∈ icons, w2.wid = w.wid := by
  obtain ⟨w, hw, hmap⟩ := List.mem_map.mp hw2
  refine ⟨w, hw, ?_⟩
  by_cases h : w.wid = x <;> simp [← hmap, h]

/-- The modify handler preserves the registry bookkeeping invariant — in
particular, no two registry entries ever acquire the same non-null GUID. -/
theorem on_icon_modified_inv (s : SystrayState) (d : IconData)
    (h : RegistryInv s) : RegistryInv (on_icon_modified s d) := by
  obtain ⟨hwid, hbound, hguids⟩ := h
  by_cases hfil : (d.guid.any fun g => s.filtered_guids.contains g) = true
  · rw [on_icon_modified, if_pos hfil]
    exact ⟨hwid, hbound, hguids⟩
  have hfil' : (d.guid.any fun g => s.filtered_guids.contains g) = false :=
    Bool.eq_false_iff.mpr hfil
  rw [on_icon_modified, hfil']
  simp only [Bool.false_eq_true, if_false]
  cases hfind : find_icon s.icons d.guid d.hWnd d.uID with
  | some icon =>
    simp only
    refine ⟨?_, ?_, ?_⟩
    · show ((applyDataToIcon s.icons icon.wid d).map (fun w => w.wid)).Nodup
      rw [applyDataToIcon_map_wid]
      exact hwid
    · intro w2 hw2
      obtain ⟨w, hw, hwe⟩ := applyDataToIcon_wid_mem s.icons icon.wid d w2 hw2
      show w2.wid < s.nextId
      rw [hwe]
      exact hbound w hw
    · show (List.filterMap (fun w => w.data.bind (fun d2 => d2.guid))
        (applyDataToIcon s.icons icon.wid d)).Nodup
      rcases find_icon_eq_some_cases s.icons d.guid d.hWnd d.uID icon hfind
        with ⟨g, hg, hfq⟩ | ⟨hall, hfq⟩
      · -- matched by GUID: the matched icon keeps the same GUID
        obtain ⟨hp, l1, l2, hicons, -⟩ := List.find?_eq_some.mp hfq
        obtain ⟨od, hod, hodg⟩ := (guidMatches_eq_true_iff g icon).mp hp
        have hguids2 : (List.filterMap
            (fun w => w.data.bind (fun d2 => d2.guid))
            (l1 ++ icon :: l2)).Nodup := by
          rw [← hicons]
          exact hguids
        rw [hicons, applyDataToIcon_decomp l1 l2 icon d (hicons ▸ hwid)]
        rw [filterMap_middle]
        rw [filterMap_middle] at hguids2
        have hX : (({ icon with
            data := icon.data.map (fun o => update_icon_data o d)
            hidden := decide (d.uFlags &&& NIF_STATE ≠ 0)
              && (d.dwState == 1) } : IconWidget).data.bind
              (fun d2 => d2.guid))
            = icon.data.bind (fun d2 => d2.guid) := by
          rw [hod]
          show (update_icon_data od d).guid = od.guid
          rw [updated_guid, hodg, hg]
          by_cases hflag : d.uFlags &&& NIF_GUID ≠ 0 <;> simp [hflag]
        rw [hX]
        exact hguids2
      · -- matched by (hwnd, uid): the GUID changes only to a fresh one
        obtain ⟨hp, l1, l2, hicons, -⟩ := List.find?_eq_some.mp hfq
        obtain ⟨od, hod⟩ := hwndUidMatches_data_isSome d.hWnd d.uID icon hp
        have hguids2 : (List.filterMap
            (fun w => w.data.bind (fun d2 => d2.guid))
            (l1 ++ icon :: l2)).Nodup := by
          rw [← hicons]
          exact hguids
        rw [hicons, applyDataToIcon_decomp l1 l2 icon d (hicons ▸ hwid)]
        rw [filterMap_middle]
        rw [filterMap_middle] at hguids2
        have hXold : icon.data.bind (fun d2 => d2.guid) = od.guid := by
          rw [hod]
          rfl
        have hXnew : (({ icon with
            data := icon.data.map (fun o => update_icon_data o d)
            hidden := decide (d.uFlags &&& NIF_STATE ≠ 0)
              && (d.dwState == 1) } : IconWidget).data.bind
              (fun d2 => d2.guid))
            = if d.uFlags &&& NIF_GUID ≠ 0 then d.guid else od.guid := by
          rw [hod]
          show (update_icon_data od d).guid = _
          rw [updated_guid]
        rw [hXnew]
        rw [hXold] at hguids2
        by_cases hflag : d.uFlags &&& NIF_GUID ≠ 0
        · rw [if_pos hflag]
          refine nodup_mid_update _ _ od.guid d.guid hguids2 ?_
          intro g2 hg2 hmem
          have hall2 : ∀ w ∈ s.icons, guidMatches g2 w = false := by
            intro w hw
            exact hall g2 hg2 w hw
          apply not_mem_entryGuids_of_no_guidMatches s g2 hall2
          rw [entryGuids, hicons, filterMap_middle, hXold]
          exact hmem
        · rw [if_neg hflag]
          exact hguids2
  | none =>
    simp only
    have hfresh : ∀ w ∈ s.icons, w.wid ≠ s.nextId := by
      intro w hw
      exact Nat.ne_of_lt (hbound w hw)
    have happ := applyDataToIcon_append_fresh s.icons
      { wid := s.nextId, data := some {},
        is_pinned := (lookupSavedState s.current_state d).is_pinned,
        hidden := false } d hfresh
    refine ⟨?_, ?_, ?_⟩
    · show ((applyDataToIcon (s.icons ++ [_]) s.nextId d).map
        (fun w => w.wid)).Nodup
      rw [happ, List.map_append]
      have hstep : (s.icons.map (fun w => w.wid) ++ s.nextId :: []).Nodup := by
        apply List.nodup_middle.mpr
        apply List.nodup_cons.mpr
        refine ⟨?_, by simpa using hwid⟩
        intro hc
        obtain ⟨w, hw, hwe⟩ := List.mem_map.mp (by simpa using hc)
        exact hfresh w hw hwe
      simpa using hstep
    · intro w2 hw2
      show w2.wid < s.nextId + 1
      obtain ⟨w, hw, hwe⟩ := applyDataToIcon_wid_mem _ s.nextId d w2 hw2
      rcases List.mem_append.mp hw with hw | hw
      · exact Nat.lt_succ_of_lt (hwe ▸ hbound w hw)
      · have hwz : w.wid = s.nextId := by
          rcases List.mem_singleton.mp hw with rfl
          rfl
        rw [hwe, hwz]
        exact Nat.lt_succ_self s.nextId
    · show (List.filterMap (fun w => w.data.bind (fun d2 => d2.guid))
        (applyDataToIcon (s.icons ++ [_]) s.nextId d)).Nodup
      rw [happ, List.filterMap_append]
      obtain ⟨hall, -⟩ := find_icon_eq_none_parts s.icons d.guid d.hWnd
        d.uID hfind
      have hXnew : (({ wid := s.nextId,
                       data := (some ({} : IconData)).map
                         (fun o => update_icon_data o d),
                       is_pinned :=
                         (lookupSavedState s.current_state d).is_pinned,
                       hidden := decide (d.uFlags &&& NIF_STATE ≠ 0)
                         && (d.dwState == 1) } : IconWidget).data.bind
            (fun d2 => d2.guid))
          = if d.uFlags &&& NIF_GUID ≠ 0 then d.guid else none := by
        show (update_icon_data {} d).guid = _
        rw [updated_guid]
      rw [List.filterMap_cons, List.filterMap_nil, hXnew]
      cases hx : (if d.uFlags &&& NIF_GUID ≠ 0 then d.guid else none) with
      | none =>
        show (List.filterMap (fun (w : IconWidget) =>
          w.data.bind (fun d2 => d2.guid)) s.icons ++ []).Nodup
        rw [List.append_nil]
        exact hguids
      | some g =>
        show (List.filterMap (fun (w : IconWidget) =>
          w.data.bind (fun d2 => d2.guid)) s.icons ++ g :: []).Nodup
        have hg : g ∉ entryGuids s := by
          by_cases hflag : d.uFlags &&& NIF_GUID ≠ 0
          · rw [if_pos hflag] at hx
            exact not_mem_entryGuids_of_no_guidMatches s g
              (fun w hw => hall g hx w hw)
          · rw [if_neg hflag] at hx
            cases hx
        apply List.nodup_middle.mpr
        apply List.nodup_cons.mpr
        refine ⟨?_, ?_⟩
        · rw [List.append_nil]
          exact hg
        · rw [List.append_nil]
          exact hguids

theorem on_icon_deleted_inv (s : SystrayState) (d : IconData)
    (h : RegistryInv s) : RegistryInv (on_icon_deleted s d) := by
  obtain ⟨hwid, hbound, hguids⟩ := h
  rw [on_icon_deleted]
  cases hfind : find_icon s.icons d.guid d.hWnd d.uID with
  | none => exact ⟨hwid, hbound, hguids⟩
  | some icon =>
    refine ⟨?_, ?_, ?_⟩
    · exact List.Nodup.sublist ((List.filter_sublist s.icons).map _) hwid
    · intro w hw
      exact hbound w (List.mem_of_mem_filter hw)
    · exact List.Nodup.sublist
        ((List.filter_sublist s.icons).filterMap _) hguids

theorem check_icons_inv (valid : Nat → Bool) (s : SystrayState)
    (h : RegistryInv s) : RegistryInv (check_icons valid s) := by
  obtain ⟨hwid, hbound, hguids⟩ := h
  refine ⟨?_, ?_, ?_⟩
  · exact List.Nodup.sublist ((List.filter_sublist s.icons).map _) hwid
  · intro w hw
    exact hbound w (List.mem_of_mem_filter hw)
  · exact List.Nodup.sublist
      ((List.filter_sublist s.icons).filterMap _) hguids

theorem applyEvent_inv (s : SystrayState) (e : TrayEvent)
    (h : RegistryInv s) : RegistryInv (applyEvent s e) := by
  cases e with
  | modified d => exact on_icon_modified_inv s d h
  | deleted d => exact on_icon_deleted_inv s d h
  | sweep valid => exact check_icons_inv valid s h

/-- C9 amended: in every state reachable from the empty registry by any
sequence of modify notifications, delete notifications and liveness sweeps,
no two registry entries carry an equal non-null GUID (the `(hwnd, uid)` half
of the claimed invariant fails — see the counterexample). -/
theorem C9_registry_guid_uniqueness (cs : List (String × IconState))
    (filt : List Nat) (es : List TrayEvent) :
    (entryGuids (runEvents (initState cs filt) es)).Nodup := by
  suffices h : ∀ s, RegistryInv s → RegistryInv (runEvents s es) by
    refine (h (initState cs filt) ⟨?_, ?_, ?_⟩).2.2
    · simp [initState]
    · simp [initState]
    · simp [initState, entryGuids]
  induction es with
  | nil => exact fun s hs => hs
  | cons e es ih =>
    intro s hs
    exact ih _ (applyEvent_inv s e hs)

/-- C9 counterexample: after the four modify notifications the registry holds
two distinct entries that are both GUID-less with `(hWnd, uID) = (2, 2)` —
the same resolved identity, not distinguished by GUID — so the claimed
invariant is violated on a state reachable from the empty registry. -/
theorem C9_counterexample :
    ¬ claimedIdentityUnique c9Final ∧
    c9Final.icons.map (fun w => w.wid) = [0, 1] ∧
    c9Final.icons.map
        (fun w => w.data.map (fun d2 => (d2.guid, d2.hWnd, d2.uID)))
      = [some (none, 2, 2), some (none, 2, 2)] := by
  refine ⟨by decide, by decide, by decide⟩
